import Mathlib

set_option maxHeartbeats 1000000

/-!
Shallow embedding of `src/measurements_pipeline.py` (a pandas-based
measurements pipeline).  Tables are modelled column-major, as pandas stores
them: an index column plus named data columns.  The pandas library calls the
source uses (`to_numeric`, `to_datetime`, boolean-mask filtering,
`index.duplicated`, `set_index`, `groupby(...).sum`, `join`,
`groupby(...).transform(lambda x: x == x.max())`) are modelled as the list
operations below; numeric-string parsing is modelled for integral literals,
and timestamp parsing for the ISO `YYYY-MM-DDTHH:MM:SS` layout (a space
separator is also accepted), which covers the formats the data source uses.
-/

namespace Pipeline

/-- Calendar date-time value at second granularity (models a pandas
Timestamp as produced by `to_datetime`). -/
structure DateTime where
  year : Nat
  month : Nat
  day : Nat
  hour : Nat
  minute : Nat
  second : Nat
deriving DecidableEq, Repr

/-- A scalar cell of a table: strings, integral numerics, datetimes,
booleans, and the missing value (pandas NaN / NaT / None). -/
inductive Val where
  | str (s : String)
  | int (n : Int)
  | dt (t : DateTime)
  | bool (b : Bool)
  | null
deriving DecidableEq, Repr

/-- Column-major table: an index column plus named data columns, each data
column aligned positionally with the index (models a pandas DataFrame). -/
structure DF where
  index : List Val
  cols : List (String × List Val)
deriving DecidableEq, Repr

/-- `DataFrame()`: the empty table. -/
def emptyDF : DF := ⟨[], []⟩

/-- `df.empty`: true when either axis has length zero. -/
def DF.empty (df : DF) : Bool := df.index.isEmpty || df.cols.isEmpty

/-- The column labels, in order. -/
def DF.colNames (df : DF) : List String := df.cols.map Prod.fst

/-- `col in df.columns`. -/
def DF.hasCol (df : DF) (name : String) : Bool :=
  df.cols.any (fun c => c.1 == name)

/-- `df[name]`: the cells of the (first) column with this label; defaults to
a column of missing values when absent (call sites in the pipeline are
guarded by the required-columns check). -/
def getColD (name : String) (df : DF) : List Val :=
  ((df.cols.find? (fun c => c.1 == name)).map Prod.snd).getD
    (List.replicate df.index.length Val.null)

/-- Replace the values of the column `name`, appending a new column at the
end when no such column exists (`df[name] = vals`). -/
def setColAux (name : String) (vals : List Val) :
    List (String × List Val) → List (String × List Val)
  | [] => [(name, vals)]
  | c :: cs => if c.1 == name then (name, vals) :: cs else c :: setColAux name vals cs

/-- `df[name] = vals`. -/
def DF.setCol (df : DF) (name : String) (vals : List Val) : DF :=
  ⟨df.index, setColAux name vals df.cols⟩

/-- `df.drop(columns=[name], errors=ignore)`: removes every column with this
label; a no-op when absent. -/
def DF.dropCol (df : DF) (name : String) : DF :=
  ⟨df.index, df.cols.filter (fun c => c.1 != name)⟩

/-- Apply a cell function to the column `name` in place
(`df.loc[:, name] = f(df[name])`). -/
def DF.mapCol (df : DF) (name : String) (f : Val → Val) : DF :=
  ⟨df.index, df.cols.map (fun c => if c.1 == name then (c.1, c.2.map f) else c)⟩

/-- Keep the entries of a list selected by a boolean mask. -/
def applyMask {α : Type} : List Bool → List α → List α
  | [], _ => []
  | _ :: _, [] => []
  | b :: bs, x :: xs => if b then x :: applyMask bs xs else applyMask bs xs

/-- Apply a row mask to every data column. -/
def maskCols (mask : List Bool) (cols : List (String × List Val)) :
    List (String × List Val) :=
  cols.map (fun c => (c.1, applyMask mask c.2))

/-- `df[mask]`: keep the rows selected by a boolean mask, across the index
and every column. -/
def DF.maskRows (df : DF) (mask : List Bool) : DF :=
  ⟨applyMask mask df.index, maskCols mask df.cols⟩

/-- `df[p(df[name])]`: boolean-mask row filtering driven by one column. -/
def DF.filterBy (df : DF) (name : String) (p : Val → Bool) : DF :=
  df.maskRows ((getColD name df).map p)

/-- `~df.index.duplicated(keep=first)`: the mask that keeps the first
occurrence of each value. -/
def firstOccMaskAux (seen : List Val) : List Val → List Bool
  | [] => []
  | v :: vs =>
    if v ∈ seen then false :: firstOccMaskAux seen vs
    else true :: firstOccMaskAux (v :: seen) vs

/-- Mask keeping the first occurrence of each index value. -/
def firstOccMask (l : List Val) : List Bool := firstOccMaskAux [] l

/-- `df.set_index(name)`: the column becomes the index and leaves the data
columns. -/
def DF.set_index (df : DF) (name : String) : DF :=
  ⟨getColD name df, df.cols.filter (fun c => c.1 != name)⟩

/-! ### Scalar parsing (models of `to_numeric` / `to_datetime`) -/

/-- Value of a decimal digit character. -/
def digitVal (c : Char) : Option Nat :=
  if c.isDigit then some (c.toNat - 48) else none

/-- Parse a non-empty all-digit character list as a natural number. -/
def digitsToNatAux (acc : Nat) : List Char → Option Nat
  | [] => some acc
  | c :: cs =>
    match digitVal c with
    | some d => digitsToNatAux (acc * 10 + d) cs
    | none => none

/-- Parse a non-empty all-digit character list as a natural number. -/
def digitsToNat (l : List Char) : Option Nat :=
  match l with
  | [] => none
  | _ => digitsToNatAux 0 l

/-- Parse a signed integral literal. -/
def parseIntStr (s : String) : Option Int :=
  match s.toList with
  | '-' :: rest => (digitsToNat rest).map (fun n => -(n : Int))
  | '+' :: rest => (digitsToNat rest).map (fun n => (n : Int))
  | l => (digitsToNat l).map (fun n => (n : Int))

/-- `to_numeric(x, errors=coerce)` on one cell: numerics pass through,
booleans read as 0/1, numeric strings parse, everything else becomes
missing (NaN). -/
def to_numeric_coerce (v : Val) : Val :=
  match v with
  | .int n => .int n
  | .bool b => .int (if b then 1 else 0)
  | .str s => match parseIntStr s with | some n => .int n | none => .null
  | .dt _ => .null
  | .null => .null

/-- `to_numeric(x, errors=coerce).fillna(0).astype(int)` on one cell. -/
def coerceNum (v : Val) : Val :=
  match to_numeric_coerce v with
  | .null => .int 0
  | w => w

/-- Two-digit field of a timestamp literal. -/
def mk2 (a b : Char) : Option Nat :=
  match digitVal a, digitVal b with
  | some x, some y => some (x * 10 + y)
  | _, _ => none

/-- Four-digit field of a timestamp literal. -/
def mk4 (a b c d : Char) : Option Nat :=
  match digitVal a, digitVal b, digitVal c, digitVal d with
  | some w, some x, some y, some z => some (((w * 10 + x) * 10 + y) * 10 + z)
  | _, _, _, _ => none

/-- Parse an ISO `YYYY-MM-DDTHH:MM:SS` timestamp literal (also with a space
separator), validating field ranges. -/
def parseISO (s : String) : Option DateTime :=
  match s.toList with
  | [y1, y2, y3, y4, '-', m1, m2, '-', d1, d2, sep, h1, h2, ':', n1, n2, ':', s1, s2] =>
    if sep = 'T' ∨ sep = ' ' then
      match mk4 y1 y2 y3 y4, mk2 m1 m2, mk2 d1 d2, mk2 h1 h2, mk2 n1 n2, mk2 s1 s2 with
      | some y, some mo, some d, some h, some mi, some se =>
        if 1 ≤ mo ∧ mo ≤ 12 ∧ 1 ≤ d ∧ d ≤ 31 ∧ h ≤ 23 ∧ mi ≤ 59 ∧ se ≤ 59 then
          some ⟨y, mo, d, h, mi, se⟩
        else none
      | _, _, _, _, _, _ => none
    else none
  | _ => none

/-- `to_datetime(x, errors=coerce)` on one cell: datetimes pass through,
parseable strings parse, everything else becomes missing (NaT). -/
def to_datetime_coerce (v : Val) : Val :=
  match v with
  | .dt t => .dt t
  | .str s => match parseISO s with | some t => .dt t | none => .null
  | _ => .null

/-! ### Stage 2: `get_cleaned_dataset` -/

/-- The four required raw columns. -/
def required_columns : List String :=
  ["timestamp", "grid_purchase", "grid_feedin", "direct_consumption"]

/-- The three numeric column names. -/
def numericColumns : List String :=
  ["grid_purchase", "grid_feedin", "direct_consumption"]

/-- `fillna(0)` on one cell of an integer column. -/
def fillna0 (v : Val) : Val := if v = Val.null then Val.int 0 else v

/-- `x > 0` on one (post-coercion, hence integral) cell. -/
def flagGt0 (v : Val) : Val :=
  Val.bool (match v with | .int n => decide (0 < n) | _ => false)

/-- Task #1: `df = df[df[direct_consumption] != Dev test]`. -/
def dropDevTest (df : DF) : DF :=
  df.filterBy "direct_consumption" (fun v => v != Val.str "Dev test")

/-- One iteration of Task #2:
`df.loc[:, col] = to_numeric(df[col], errors=coerce).fillna(0).astype(int)`. -/
def coerceCol (name : String) (df : DF) : DF := df.mapCol name coerceNum

/-- Task #3: `df = df.drop(columns=[date], errors=ignore)`. -/
def dropDateCol (df : DF) : DF := df.dropCol "date"

/-- Task #4: `df[timestamp] = to_datetime(df[timestamp], errors=coerce)`. -/
def parseTimestamps (df : DF) : DF := df.mapCol "timestamp" to_datetime_coerce

/-- Task #5, first statement:
`df = df.dropna(subset=[timestamp]).set_index(timestamp)`. -/
def setTimestampIndex (df : DF) : DF :=
  (df.filterBy "timestamp" (fun v => v != Val.null)).set_index "timestamp"

/-- Task #5, second statement: `df = df[~df.index.duplicated(keep=first)]`. -/
def dedupIndex (df : DF) : DF := df.maskRows (firstOccMask df.index)

/-- Task #6: `df.loc[:, [grid_purchase, grid_feedin]] =
df[[grid_purchase, grid_feedin]].fillna(0).copy()`. -/
def refillGrid (df : DF) : DF :=
  (df.mapCol "grid_purchase" fillna0).mapCol "grid_feedin" fillna0

/-- Task #7: `df[direct_consumption_flag] = df[direct_consumption] > 0`. -/
def addFlag (df : DF) : DF :=
  df.setCol "direct_consumption_flag" ((getColD "direct_consumption" df).map flagGt0)

/-- The transformation statements of `get_cleaned_dataset`'s try block, in
source order (Task #2 contributes one statement per loop iteration). -/
def cleanSteps : List (DF → DF) :=
  [ dropDevTest
  , coerceCol "grid_purchase"
  , coerceCol "grid_feedin"
  , coerceCol "direct_consumption"
  , dropDateCol
  , parseTimestamps
  , setTimestampIndex
  , dedupIndex
  , refillGrid
  , addFlag
  ]

/-- The intermediate table of `get_cleaned_dataset` right after
`set_index(timestamp)` and before the duplicate collapse: Dev-test rows
dropped, numeric columns coerced, `date` dropped, timestamps parsed,
null-timestamp rows dropped, timestamp made the index. -/
def preDedup (df : DF) : DF :=
  setTimestampIndex (parseTimestamps (dropDateCol (coerceCol
    "direct_consumption" (coerceCol "grid_feedin" (coerceCol "grid_purchase"
      (dropDevTest df))))))

/-- `get_cleaned_dataset`: empty input returned unchanged; missing required
columns yield `DataFrame()`; otherwise all cleaning statements run. -/
def get_cleaned_dataset (df : DF) : DF :=
  if df.empty then df
  else if required_columns.all (fun c => df.hasCol c) then
    cleanSteps.foldl (fun d f => f d) df
  else emptyDF

/-- `get_cleaned_dataset` when an unexpected exception interrupts the try
block after exactly `k` transformation statements have completed: the
`except` handler returns the current value of the local `df` binding, which
has been rebound by each completed statement. -/
def get_cleaned_dataset_failAt (k : Nat) (df : DF) : DF :=
  if df.empty then df
  else if required_columns.all (fun c => df.hasCol c) then
    (cleanSteps.take k).foldl (fun d f => f d) df
  else emptyDF

/-! ### Stage 2b: `add_hour_metrics` -/

/-- `df.index.hour` on one index cell. -/
def hourVal (v : Val) : Val :=
  match v with
  | .dt t => .int t.hour
  | _ => .null

/-- `df.index.floor(D)` on one index cell: the timestamp with its time
fields zeroed. -/
def dayKey (v : Val) : Val :=
  match v with
  | .dt t => .dt ⟨t.year, t.month, t.day, 0, 0, 0⟩
  | w => w

/-- Numeric reading of a cell inside an aggregation (integer columns). -/
def valInt (v : Val) : Int :=
  match v with
  | .int n => n
  | .bool b => if b then 1 else 0
  | _ => 0

/-- `groupby(keys)[col].sum()` read back at key `k`: the sum of the values
at the positions whose key equals `k`. -/
def groupSum (keys : List Val) (vals : List Val) (k : Val) : Int :=
  ((keys.zip vals).filter (fun p => p.1 == k)).foldl (fun a p => a + valInt p.2) 0

/-- `groupby(keys)[col].max()` read back at key `k` (groups are non-empty at
every call site, the 0 default is never exercised there). -/
def groupMax (keys : List Val) (vals : List Val) (k : Val) : Int :=
  match ((keys.zip vals).filter (fun p => p.1 == k)).map (fun p => valInt p.2) with
  | [] => 0
  | x :: xs => xs.foldl max x

/-- `df[hour] = df.index.hour`. -/
def addHourColumn (df : DF) : DF := df.setCol "hour" (df.index.map hourVal)

/-- The `grid_purchase_total` values joined back onto each row: the per-hour
group sum looked up at the row's hour key (a null hour key joins to a
missing total, since groupby drops null keys). -/
def gpTotalsCol (df : DF) : List Val :=
  (getColD "hour" df).map (fun h =>
    if h == Val.null then Val.null
    else Val.int (groupSum (getColD "hour" df) (getColD "grid_purchase" df) h))

/-- The `grid_feedin_total` values joined back onto each row. -/
def gfTotalsCol (df : DF) : List Val :=
  (getColD "hour" df).map (fun h =>
    if h == Val.null then Val.null
    else Val.int (groupSum (getColD "hour" df) (getColD "grid_feedin" df) h))

/-- `hourly_totals = df.groupby(hour)[[grid_purchase, grid_feedin]].sum()`
renamed with the `_total` suffix and left-joined back on the hour column
(modelled for tables without pre-existing total columns, as the joined
theorems require). -/
def joinHourTotals (df : DF) : DF :=
  (df.setCol "grid_purchase_total" (gpTotalsCol df)).setCol
    "grid_feedin_total" (gfTotalsCol df)

/-- `df.groupby(df.index.floor(D))[src].transform(lambda x: x == x.max())`:
each row is compared with the maximum of its calendar-day group. -/
def dayMaxFlagCol (df : DF) (src : String) : List Val :=
  ((df.index.map dayKey).zip (getColD src df)).map
    (fun p => Val.bool (decide (valInt p.2 =
      groupMax (df.index.map dayKey) (getColD src df) p.1)))

/-- `df[dst] = df.groupby(df.index.floor(D))[src].transform(lambda x: x == x.max())`. -/
def addDayMaxFlags (df : DF) (src dst : String) : DF :=
  df.setCol dst (dayMaxFlagCol df src)

/-- `df = df.drop(columns=[hour])`. -/
def dropHourColumn (df : DF) : DF := df.dropCol "hour"

/-- The `max_grid_purchase_hour` statement. -/
def maxPurchaseFlags (df : DF) : DF :=
  addDayMaxFlags df "grid_purchase" "max_grid_purchase_hour"

/-- The `max_grid_feedin_hour` statement. -/
def maxFeedinFlags (df : DF) : DF :=
  addDayMaxFlags df "grid_feedin" "max_grid_feedin_hour"

/-- The transformation statements of `add_hour_metrics`'s try block, in
source order: add the hour column; compute and join the hourly totals; drop
the hour column; add the two per-day maximum flags. -/
def ahmSteps : List (DF → DF) :=
  [ addHourColumn
  , joinHourTotals
  , dropHourColumn
  , maxPurchaseFlags
  , maxFeedinFlags
  ]

/-- `add_hour_metrics`: empty input returned unchanged; otherwise all
aggregation statements run. -/
def add_hour_metrics (df : DF) : DF :=
  if df.empty then df
  else ahmSteps.foldl (fun d f => f d) df

/-- `add_hour_metrics` when an unexpected exception interrupts the try
block after exactly `k` transformation statements have completed: the
`except` handler returns the current value of the local `df` binding. -/
def add_hour_metrics_failAt (k : Nat) (df : DF) : DF :=
  if df.empty then df
  else (ahmSteps.take k).foldl (fun d f => f d) df

/-! ### Stage 1: `load_dataset` -/

/-- Logging severity of the event a stage emits. -/
inductive LogLevel where
  | info
  | warning
  | error
deriving DecidableEq, Repr

/-- Outcome of the `read_csv` call, the external effect `load_dataset`
wraps: success, a missing file (`FileNotFoundError`), or any other parse
failure. -/
inductive ReadResult where
  | ok (df : DF)
  | fileNotFound
  | parseFailure
deriving DecidableEq, Repr

/-- The table `load_dataset` returns together with the level of the log
event it emits and whether that event carries the exception traceback
(`logger.exception` does, `logger.error` and `logger.info` do not). -/
structure LoadResult where
  df : DF
  level : LogLevel
  withTraceback : Bool
deriving DecidableEq, Repr

/-- `load_dataset`: success logs at info and returns the parsed table;
`FileNotFoundError` logs at error (via `logger.error`) and returns
`DataFrame()`; any other exception logs at error with traceback (via
`logger.exception`) and returns `DataFrame()`.  Total: no exception ever
propagates to the caller. -/
def load_dataset : ReadResult → LoadResult
  | .ok df => ⟨df, .info, false⟩
  | .fileNotFound => ⟨emptyDF, .error, false⟩
  | .parseFailure => ⟨emptyDF, .error, true⟩

/-! ### Specification-side accessors and well-formedness predicates -/

/-- Hour-of-day (0–23) of a datetime cell. -/
def tsHour (v : Val) : Nat :=
  match v with
  | .dt t => t.hour
  | _ => 0

/-- Calendar day (year, month, day) of a datetime cell. -/
def calendarDay (v : Val) : Nat × Nat × Nat :=
  match v with
  | .dt t => (t.year, t.month, t.day)
  | _ => (0, 0, 0)

/-- First value paired with the key `k`, scanning left to right (the value
of the first row carrying that timestamp). -/
def lookupFirst (k : Val) (l : List (Val × Val)) : Option Val :=
  (l.find? (fun p => p.1 == k)).map Prod.snd

/-- Every data column has as many cells as the index (every real DataFrame
satisfies this). -/
def DF.Aligned (df : DF) : Prop :=
  ∀ c ∈ df.cols, c.2.length = df.index.length

/-- Whether a cell is an integer. -/
def isInt : Val → Bool
  | .int _ => true
  | _ => false

/-- Whether a cell is a datetime. -/
def isDt : Val → Bool
  | .dt _ => true
  | _ => false

/-- Every cell of the named column is an integer. -/
def colAllInt (name : String) (df : DF) : Prop :=
  ∀ v ∈ getColD name df, isInt v = true

/-- Every index entry is a datetime (the table is timestamp-indexed). -/
def dtIndexed (df : DF) : Prop :=
  ∀ v ∈ df.index, isDt v = true

/-! ### Concrete tables used by the witnesses and counterexamples -/

/-- The raw rows of the spec's end-to-end example, as loaded
(integer-range index, four required columns). -/
def exampleRaw : DF :=
  ⟨[Val.int 0, Val.int 1, Val.int 2],
   [ ("timestamp",
      [Val.str "2024-01-01T00:00:00", Val.str "2024-01-01T01:00:00",
       Val.str "2024-01-01T01:00:00"])
   , ("grid_purchase", [Val.int 100, Val.str "abc", Val.int 50])
   , ("grid_feedin", [Val.int 20, Val.int 30, Val.int 30])
   , ("direct_consumption", [Val.str "Dev test", Val.int 10, Val.int 10])
   ]⟩

/-- 2024-01-01 01:00:00. -/
def exT1 : DateTime := ⟨2024, 1, 1, 1, 0, 0⟩

/-- What `get_cleaned_dataset` actually produces on `exampleRaw`. -/
def exampleCleaned : DF :=
  ⟨[Val.dt exT1],
   [ ("grid_purchase", [Val.int 0])
   , ("grid_feedin", [Val.int 30])
   , ("direct_consumption", [Val.int 10])
   , ("direct_consumption_flag", [Val.bool true])
   ]⟩

/-- Raw table whose two rows share a parsed timestamp, the first being a
Dev-test row. -/
def dupDevRaw : DF :=
  ⟨[Val.int 0, Val.int 1],
   [ ("timestamp",
      [Val.str "2024-03-05T07:00:00", Val.str "2024-03-05T07:00:00"])
   , ("grid_purchase", [Val.int 100, Val.int 7])
   , ("grid_feedin", [Val.int 1, Val.int 2])
   , ("direct_consumption", [Val.str "Dev test", Val.int 3])
   ]⟩

/-- Raw table with a negative reading in `grid_purchase`. -/
def negRaw : DF :=
  ⟨[Val.int 0],
   [ ("timestamp", [Val.str "2024-02-02T05:00:00"])
   , ("grid_purchase", [Val.int (-5)])
   , ("grid_feedin", [Val.int 4])
   , ("direct_consumption", [Val.int 0])
   ]⟩

/-- Cleaned-shape table spanning two days that share the hour-of-day 1:
rows at (day 1, 01:00), (day 2, 01:00), (day 1, 02:00). -/
def twoDayCleaned : DF :=
  ⟨[ Val.dt ⟨2024, 1, 1, 1, 0, 0⟩, Val.dt ⟨2024, 1, 2, 1, 0, 0⟩,
     Val.dt ⟨2024, 1, 1, 2, 0, 0⟩ ],
   [ ("grid_purchase", [Val.int 5, Val.int 7, Val.int 11])
   , ("grid_feedin", [Val.int 2, Val.int 3, Val.int 4])
   , ("direct_consumption", [Val.int 0, Val.int 1, Val.int 0])
   , ("direct_consumption_flag", [Val.bool false, Val.bool true, Val.bool false])
   ]⟩

/-- Cleaned-shape table with a tie at the daily maximum `grid_purchase`
(two rows of the same day both at 9). -/
def tieCleaned : DF :=
  ⟨[ Val.dt ⟨2024, 1, 1, 3, 0, 0⟩, Val.dt ⟨2024, 1, 1, 4, 0, 0⟩,
     Val.dt ⟨2024, 1, 1, 5, 0, 0⟩ ],
   [ ("grid_purchase", [Val.int 9, Val.int 9, Val.int 2])
   , ("grid_feedin", [Val.int 1, Val.int 6, Val.int 6])
   ]⟩

/-- Cleaned-shape table that already carries a column named `hour`. -/
def hourColCleaned : DF :=
  ⟨[Val.dt ⟨2024, 1, 1, 1, 0, 0⟩],
   [ ("grid_purchase", [Val.int 5])
   , ("grid_feedin", [Val.int 2])
   , ("hour", [Val.str "keep me"])
   ]⟩

/-- Raw table with an extra column named `direct_consumption_flag`. -/
def flagColRaw : DF :=
  ⟨[Val.int 0],
   [ ("timestamp", [Val.str "2024-02-02T05:00:00"])
   , ("grid_purchase", [Val.int 1])
   , ("grid_feedin", [Val.int 2])
   , ("direct_consumption", [Val.int 0])
   , ("direct_consumption_flag", [Val.str "keep me"])
   ]⟩

/-- Raw table with two surviving rows sharing a parsed timestamp and
differing `grid_purchase`. -/
def dup2Raw : DF :=
  ⟨[Val.int 0, Val.int 1],
   [ ("timestamp",
      [Val.str "2024-03-05T07:00:00", Val.str "2024-03-05T07:00:00"])
   , ("grid_purchase", [Val.int 100, Val.int 7])
   , ("grid_feedin", [Val.int 1, Val.int 2])
   , ("direct_consumption", [Val.int 3, Val.int 4])
   ]⟩

/-- Raw table with a generic extra column `battery_id` that the cleaner
should carry through untouched. -/
def extraColRaw : DF :=
  ⟨[Val.int 0, Val.int 1],
   [ ("timestamp",
      [Val.str "2024-03-05T07:00:00", Val.str "2024-03-05T08:00:00"])
   , ("grid_purchase", [Val.int 100, Val.int 7])
   , ("grid_feedin", [Val.int 1, Val.int 2])
   , ("direct_consumption", [Val.str "Dev test", Val.int 3])
   , ("battery_id", [Val.str "b-1", Val.str "b-2"])
   ]⟩

/-! ### Mask lemmas -/

theorem applyMask_nil {α : Type} (m : List Bool) : applyMask m ([] : List α) = [] := by
  cases m <;> rfl

theorem applyMask_cons_true {α : Type} (bs : List Bool) (x : α) (xs : List α) :
    applyMask (true :: bs) (x :: xs) = x :: applyMask bs xs := by
  simp [applyMask]

theorem applyMask_cons_false {α : Type} (bs : List Bool) (x : α) (xs : List α) :
    applyMask (false :: bs) (x :: xs) = applyMask bs xs := by
  simp [applyMask]

theorem applyMask_sublist {α : Type} :
    ∀ (m : List Bool) (l : List α), List.Sublist (applyMask m l) l
  | [], l => by simp [applyMask]
  | _ :: _, [] => by simp [applyMask]
  | b :: bs, x :: xs => by
    cases b with
    | true => rw [applyMask_cons_true]; exact (applyMask_sublist bs xs).cons₂ x
    | false => rw [applyMask_cons_false]; exact (applyMask_sublist bs xs).cons x

theorem mem_of_mem_applyMask {α : Type} {m : List Bool} {l : List α} {x : α}
    (h : x ∈ applyMask m l) : x ∈ l :=
  (applyMask_sublist m l).subset h

theorem applyMask_length_pair {α β : Type} :
    ∀ (m : List Bool) (l1 : List α) (l2 : List β), l1.length = l2.length →
      (applyMask m l1).length = (applyMask m l2).length
  | [], _, _, _ => by simp [applyMask]
  | _ :: _, [], l2, h => by
    cases l2 with
    | nil => simp [applyMask]
    | cons y ys => simp at h
  | _ :: _, x :: xs, [], h => by simp at h
  | b :: bs, x :: xs, y :: ys, h => by
    have h' : xs.length = ys.length := by simpa using h
    cases b with
    | true =>
      rw [applyMask_cons_true, applyMask_cons_true]
      simpa using applyMask_length_pair bs xs ys h'
    | false =>
      rw [applyMask_cons_false, applyMask_cons_false]
      exact applyMask_length_pair bs xs ys h'

theorem applyMask_map {α β : Type} (f : α → β) :
    ∀ (m : List Bool) (l : List α), applyMask m (l.map f) = (applyMask m l).map f
  | [], l => by simp [applyMask]
  | _ :: _, [] => by simp [applyMask]
  | b :: bs, x :: xs => by
    cases b with
    | true =>
      rw [List.map_cons, applyMask_cons_true, applyMask_cons_true, List.map_cons,
        applyMask_map f bs xs]
    | false =>
      rw [List.map_cons, applyMask_cons_false, applyMask_cons_false,
        applyMask_map f bs xs]

theorem applyMask_zip {α β : Type} :
    ∀ (m : List Bool) (l1 : List α) (l2 : List β), l1.length = l2.length →
      applyMask m (l1.zip l2) = (applyMask m l1).zip (applyMask m l2)
  | [], _, _, _ => by simp [applyMask]
  | _ :: _, [], l2, h => by
    cases l2 with
    | nil => simp [applyMask]
    | cons y ys => simp at h
  | _ :: _, x :: xs, [], h => by simp at h
  | b :: bs, x :: xs, y :: ys, h => by
    have h' : xs.length = ys.length := by simpa using h
    cases b with
    | true =>
      rw [List.zip_cons_cons, applyMask_cons_true, applyMask_cons_true,
        applyMask_cons_true, List.zip_cons_cons, applyMask_zip bs xs ys h']
    | false =>
      rw [List.zip_cons_cons, applyMask_cons_false, applyMask_cons_false,
        applyMask_cons_false, applyMask_zip bs xs ys h']

/-! ### First-occurrence (duplicate collapse) lemmas -/

theorem firstOccMaskAux_cons_mem {seen : List Val} {v : Val} (vs : List Val)
    (h : v ∈ seen) :
    firstOccMaskAux seen (v :: vs) = false :: firstOccMaskAux seen vs := by
  simp [firstOccMaskAux, h]

theorem firstOccMaskAux_cons_notmem {seen : List Val} {v : Val} (vs : List Val)
    (h : v ∉ seen) :
    firstOccMaskAux seen (v :: vs) = true :: firstOccMaskAux (v :: seen) vs := by
  simp [firstOccMaskAux, h]

theorem firstOccAux_notin_seen :
    ∀ (seen : List Val) (l : List Val) (x : Val),
      x ∈ applyMask (firstOccMaskAux seen l) l → x ∉ seen
  | seen, [], x => by simp [firstOccMaskAux, applyMask]
  | seen, v :: vs, x => by
    by_cases hv : v ∈ seen
    · rw [firstOccMaskAux_cons_mem vs hv, applyMask_cons_false]
      exact firstOccAux_notin_seen seen vs x
    · rw [firstOccMaskAux_cons_notmem vs hv, applyMask_cons_true, List.mem_cons]
      rintro (rfl | h)
      · exact hv
      · intro hx
        exact firstOccAux_notin_seen (v :: seen) vs x h (List.mem_cons_of_mem v hx)

theorem firstOccAux_nodup :
    ∀ (seen : List Val) (l : List Val),
      (applyMask (firstOccMaskAux seen l) l).Nodup
  | seen, [] => by simp [firstOccMaskAux, applyMask]
  | seen, v :: vs => by
    by_cases hv : v ∈ seen
    · rw [firstOccMaskAux_cons_mem vs hv, applyMask_cons_false]
      exact firstOccAux_nodup seen vs
    · rw [firstOccMaskAux_cons_notmem vs hv, applyMask_cons_true, List.nodup_cons]
      refine ⟨fun h => ?_, firstOccAux_nodup (v :: seen) vs⟩
      exact firstOccAux_notin_seen (v :: seen) vs v h (List.mem_cons_self v seen)

theorem firstOccAux_mem :
    ∀ (seen : List Val) (l : List Val) (x : Val),
      x ∈ l → x ∉ seen → x ∈ applyMask (firstOccMaskAux seen l) l
  | seen, [], x => by simp
  | seen, v :: vs, x => by
    intro hmem hseen
    by_cases hv : v ∈ seen
    · rw [firstOccMaskAux_cons_mem vs hv, applyMask_cons_false]
      rcases List.mem_cons.mp hmem with rfl | h
      · exact absurd hv hseen
      · exact firstOccAux_mem seen vs x h hseen
    · rw [firstOccMaskAux_cons_notmem vs hv, applyMask_cons_true, List.mem_cons]
      rcases List.mem_cons.mp hmem with rfl | h
      · exact Or.inl rfl
      · by_cases hxv : x = v
        · exact Or.inl hxv
        · refine Or.inr (firstOccAux_mem (v :: seen) vs x h ?_)
          simp [hxv, hseen]

theorem firstOccAux_lookup :
    ∀ (seen : List Val) (l : List Val) (vals : List Val) (t : Val),
      l.length = vals.length → t ∉ seen →
      lookupFirst t ((applyMask (firstOccMaskAux seen l) l).zip
        (applyMask (firstOccMaskAux seen l) vals)) =
      lookupFirst t (l.zip vals)
  | seen, [], vals, t, h, ht => by simp [firstOccMaskAux, applyMask]
  | seen, v :: vs, [], t, h, ht => by simp at h
  | seen, v :: vs, w :: ws, t, h, ht => by
    have h' : vs.length = ws.length := by simpa using h
    by_cases hv : v ∈ seen
    · have htv : ¬(v == t) = true := by
        simp only [beq_iff_eq]
        intro he
        rw [he] at hv
        exact ht hv
      rw [firstOccMaskAux_cons_mem vs hv, applyMask_cons_false, applyMask_cons_false,
        firstOccAux_lookup seen vs ws t h' ht, List.zip_cons_cons]
      simp [lookupFirst, List.find?, htv]
    · rw [firstOccMaskAux_cons_notmem vs hv, applyMask_cons_true, applyMask_cons_true,
        List.zip_cons_cons, List.zip_cons_cons]
      by_cases htv : v = t
      · simp [lookupFirst, List.find?, htv]
      · have hb : (v == t) = false := by simpa using htv
        have ht' : t ∉ v :: seen := by
          intro hmem
          rcases List.mem_cons.mp hmem with rfl | hmem2
          · exact htv rfl
          · exact ht hmem2
        simp only [lookupFirst, List.find?, hb]
        exact firstOccAux_lookup (v :: seen) vs ws t h' ht'

/-! ### Column access lemmas -/

theorem find?_setColAux_self (n : String) (vs : List Val) :
    ∀ cols : List (String × List Val),
      (setColAux n vs cols).find? (fun c => c.1 == n) = some (n, vs)
  | [] => by simp [setColAux]
  | c :: cs => by
    by_cases h : c.1 = n
    · simp [setColAux, h]
    · have hb : (c.1 == n) = false := by simpa using h
      simp only [setColAux, hb, Bool.false_eq_true, if_neg, List.find?]
      simpa [hb] using find?_setColAux_self n vs cs

theorem find?_setColAux_other {n m : String} (hnm : n ≠ m) (vs : List Val) :
    ∀ cols : List (String × List Val),
      (setColAux m vs cols).find? (fun c => c.1 == n) =
        cols.find? (fun c => c.1 == n)
  | [] => by
    have hb : (m == n) = false := by simpa using fun h => hnm h.symm
    simp [setColAux, List.find?, hb]
  | c :: cs => by
    by_cases h : c.1 = m
    · have hb : (m == n) = false := by simpa using fun he => hnm he.symm
      have hcn : (c.1 == n) = false := by simpa [h] using fun he => hnm he.symm
      simp [setColAux, h, List.find?, hb, hcn]
    · have hb : (c.1 == m) = false := by simpa using h
      simp only [setColAux, hb, Bool.false_eq_true, if_neg, List.find?]
      by_cases hcn : c.1 = n
      · simp [hcn]
      · have hcnb : (c.1 == n) = false := by simpa using hcn
        simpa [hcnb] using find?_setColAux_other hnm vs cs

theorem getColD_setCol_self (df : DF) (n : String) (vs : List Val) :
    getColD n (df.setCol n vs) = vs := by
  simp [getColD, DF.setCol, find?_setColAux_self]

theorem getColD_setCol_other {n m : String} (hnm : n ≠ m) (df : DF) (vs : List Val) :
    getColD n (df.setCol m vs) = getColD n df := by
  simp [getColD, DF.setCol, find?_setColAux_other hnm]

theorem find?_filter_ne {n m : String} (hnm : n ≠ m) :
    ∀ cols : List (String × List Val),
      (cols.filter (fun c => c.1 != m)).find? (fun c => c.1 == n) =
        cols.find? (fun c => c.1 == n)
  | [] => by simp
  | c :: cs => by
    by_cases hcm : c.1 = m
    · have h1 : (c.1 != m) = false := by simp [hcm]
      have h2 : (c.1 == n) = false := by simpa [hcm] using fun he => hnm he.symm
      simp only [List.filter_cons, h1, Bool.false_eq_true, if_neg, List.find?, h2]
      exact find?_filter_ne hnm cs
    · have h1 : (c.1 != m) = true := by simpa using hcm
      simp only [List.filter_cons, h1, if_pos, List.find?]
      by_cases hcn : c.1 = n
      · simp [hcn]
      · have h2 : (c.1 == n) = false := by simpa using hcn
        simpa [h2] using find?_filter_ne hnm cs

theorem getColD_dropCol_other {n m : String} (hnm : n ≠ m) (df : DF) :
    getColD n (df.dropCol m) = getColD n df := by
  simp [getColD, DF.dropCol, find?_filter_ne hnm]

theorem find?_map_keepFst {f : String × List Val → String × List Val}
    (hf : ∀ c, (f c).1 = c.1) (n : String) :
    ∀ cols : List (String × List Val),
      (cols.map f).find? (fun c => c.1 == n) =
        (cols.find? (fun c => c.1 == n)).map f
  | [] => by simp
  | c :: cs => by
    simp only [List.map_cons, List.find?]
    rw [hf c]
    by_cases hcn : c.1 = n
    · simp [hcn]
    · have h2 : (c.1 == n) = false := by simpa using hcn
      simpa [h2] using find?_map_keepFst hf n cs

theorem mapCol_keepFst (m : String) (f : Val → Val)
    (c : String × List Val) :
    ((fun c : String × List Val =>
      if c.1 == m then (c.1, c.2.map f) else c) c).1 = c.1 := by
  by_cases h : c.1 = m <;> simp [h]

theorem getColD_mapCol_other {n m : String} (hnm : n ≠ m) (df : DF) (f : Val → Val) :
    getColD n (df.mapCol m f) = getColD n df := by
  simp only [getColD, DF.mapCol, find?_map_keepFst (mapCol_keepFst m f) n]
  cases hfind : df.cols.find? (fun c => c.1 == n) with
  | none => simp
  | some c =>
    have hcn : c.1 = n := by simpa using List.find?_some hfind
    have hcm : ¬ c.1 = m := by rw [hcn]; exact hnm
    have hb : (c.1 == m) = false := by simpa using hcm
    simp [hb, hcm]

theorem hasCol_find? {df : DF} {n : String} (h : df.hasCol n = true) :
    ∃ vs, df.cols.find? (fun c => c.1 == n) = some (n, vs) := by
  have h2 : ∃ c ∈ df.cols, (c.1 == n) = true := by
    simpa [DF.hasCol, List.any_eq_true] using h
  have h3 : (df.cols.find? (fun c => c.1 == n)).isSome := by
    rw [List.find?_isSome]
    exact h2
  cases hfind : df.cols.find? (fun c => c.1 == n) with
  | none => rw [hfind] at h3; simp at h3
  | some c =>
    obtain ⟨a, b⟩ := c
    have hcn : a = n := by simpa using List.find?_some hfind
    subst hcn
    exact ⟨b, rfl⟩

theorem getColD_mapCol_self {df : DF} {n : String} (h : df.hasCol n = true)
    (f : Val → Val) :
    getColD n (df.mapCol n f) = (getColD n df).map f := by
  obtain ⟨vs, hfind⟩ := hasCol_find? h
  simp only [getColD, DF.mapCol, find?_map_keepFst (mapCol_keepFst n f) n, hfind]
  simp

theorem getColD_maskRows {df : DF} {n : String} (h : df.hasCol n = true)
    (m : List Bool) :
    getColD n (df.maskRows m) = applyMask m (getColD n df) := by
  obtain ⟨vs, hfind⟩ := hasCol_find? h
  have hf : ∀ c : String × List Val,
      ((fun c : String × List Val => (c.1, applyMask m c.2)) c).1 = c.1 := by
    intro c; rfl
  simp [getColD, DF.maskRows, maskCols, find?_map_keepFst hf n, hfind]

theorem set_index_index (df : DF) (k : String) :
    (df.set_index k).index = getColD k df := rfl

theorem getColD_set_index {df : DF} {n k : String} (hnk : n ≠ k)
    (h : df.hasCol n = true) :
    getColD n (df.set_index k) = getColD n df := by
  obtain ⟨vs, hfind⟩ := hasCol_find? h
  simp [getColD, DF.set_index, find?_filter_ne hnk, hfind]

/-! ### Column presence lemmas -/

theorem hasCol_of_find? {df : DF} {n : String} {c : String × List Val}
    (h : df.cols.find? (fun c => c.1 == n) = some c) : df.hasCol n = true := by
  have hmem := List.mem_of_find?_eq_some h
  have hp := List.find?_some h
  simp only [DF.hasCol, List.any_eq_true]
  exact ⟨c, hmem, hp⟩

theorem hasCol_setCol_self (df : DF) (n : String) (vs : List Val) :
    (df.setCol n vs).hasCol n = true :=
  hasCol_of_find? (find?_setColAux_self n vs df.cols)

theorem hasCol_congr_find? {df df2 : DF} {n : String}
    (h : df2.cols.find? (fun c => c.1 == n) = df.cols.find? (fun c => c.1 == n)) :
    df2.hasCol n = df.hasCol n := by
  cases hfind : df.cols.find? (fun c => c.1 == n) with
  | none =>
    rw [hfind] at h
    have e2 : df2.cols.any (fun c => c.1 == n) = false := by
      rw [List.any_eq_false]
      intro x hx
      simpa using List.find?_eq_none.mp h x hx
    have e3 : df.cols.any (fun c => c.1 == n) = false := by
      rw [List.any_eq_false]
      intro x hx
      simpa using List.find?_eq_none.mp hfind x hx
    simp only [DF.hasCol]
    rw [e2, e3]
  | some c =>
    rw [hfind] at h
    rw [hasCol_of_find? h, hasCol_of_find? hfind]

theorem hasCol_setCol_other {n m : String} (hnm : n ≠ m) (df : DF) (vs : List Val) :
    (df.setCol m vs).hasCol n = df.hasCol n :=
  hasCol_congr_find? (find?_setColAux_other hnm vs df.cols)

theorem any_map_keepFst (f : String × List Val → String × List Val)
    (hf : ∀ c, (f c).1 = c.1) (n : String) :
    ∀ cols : List (String × List Val),
      (cols.map f).any (fun c => c.1 == n) = cols.any (fun c => c.1 == n)
  | [] => rfl
  | c :: cs => by
    rw [List.map_cons, List.any_cons, List.any_cons, hf c,
      any_map_keepFst f hf n cs]

theorem hasCol_mapCol (df : DF) (n m : String) (f : Val → Val) :
    (df.mapCol m f).hasCol n = df.hasCol n := by
  simp only [DF.hasCol, DF.mapCol]
  exact any_map_keepFst _ (mapCol_keepFst m f) n df.cols

theorem hasCol_maskRows (df : DF) (n : String) (m : List Bool) :
    (df.maskRows m).hasCol n = df.hasCol n := by
  simp only [DF.hasCol, DF.maskRows, maskCols]
  exact any_map_keepFst (fun c => (c.1, applyMask m c.2)) (fun c => rfl) n df.cols

theorem hasCol_dropCol {n m : String} (hnm : n ≠ m) (df : DF) :
    (df.dropCol m).hasCol n = df.hasCol n := by
  apply hasCol_congr_find?
  exact find?_filter_ne hnm df.cols

theorem hasCol_set_index {n k : String} (hnk : n ≠ k) (df : DF) :
    (df.set_index k).hasCol n = df.hasCol n := by
  apply hasCol_congr_find?
  exact find?_filter_ne hnk df.cols

/-! ### Alignment lemmas -/

theorem getColD_length {df : DF} {n : String} (ha : df.Aligned)
    (h : df.hasCol n = true) : (getColD n df).length = df.index.length := by
  obtain ⟨vs, hfind⟩ := hasCol_find? h
  have hmem := List.mem_of_find?_eq_some hfind
  have := ha (n, vs) hmem
  simpa [getColD, hfind] using this

theorem aligned_mapCol {df : DF} (ha : df.Aligned) (m : String) (f : Val → Val) :
    (df.mapCol m f).Aligned := by
  intro c hc
  simp only [DF.mapCol, List.mem_map] at hc
  obtain ⟨c0, hc0, hEq⟩ := hc
  have h0 := ha c0 hc0
  by_cases hcm : c0.1 = m
  · have hb : (c0.1 == m) = true := by simpa using hcm
    rw [← hEq]
    simpa [hb, DF.mapCol] using h0
  · have hb : (c0.1 == m) = false := by simpa using hcm
    rw [← hEq]
    simpa [hb, DF.mapCol] using h0

theorem aligned_maskRows {df : DF} (ha : df.Aligned) (m : List Bool) :
    (df.maskRows m).Aligned := by
  intro c hc
  simp only [DF.maskRows, maskCols, List.mem_map] at hc
  obtain ⟨c0, hc0, hEq⟩ := hc
  rw [← hEq]
  exact applyMask_length_pair m c0.2 df.index (ha c0 hc0)

theorem aligned_dropCol {df : DF} (ha : df.Aligned) (m : String) :
    (df.dropCol m).Aligned := by
  intro c hc
  simp only [DF.dropCol] at hc
  exact ha c (List.mem_of_mem_filter hc)

theorem setColAux_cons_eq {n : String} {vs : List Val} {c0 : String × List Val}
    (cs : List (String × List Val)) (h : (c0.1 == n) = true) :
    setColAux n vs (c0 :: cs) = (n, vs) :: cs := by
  simp [setColAux, h]

theorem setColAux_cons_ne {n : String} {vs : List Val} {c0 : String × List Val}
    (cs : List (String × List Val)) (h : (c0.1 == n) = false) :
    setColAux n vs (c0 :: cs) = c0 :: setColAux n vs cs := by
  simp [setColAux, h]

theorem mem_setColAux {n : String} {vs : List Val} :
    ∀ {cols : List (String × List Val)} {c : String × List Val},
      c ∈ setColAux n vs cols → c = (n, vs) ∨ c ∈ cols := by
  intro cols
  induction cols with
  | nil => intro c hc; simp [setColAux] at hc; exact Or.inl hc
  | cons c0 cs ih =>
    intro c hc
    cases hb : (c0.1 == n) with
    | true =>
      rw [setColAux_cons_eq cs hb, List.mem_cons] at hc
      rcases hc with h | h
      · exact Or.inl h
      · exact Or.inr (List.mem_cons_of_mem c0 h)
    | false =>
      rw [setColAux_cons_ne cs hb, List.mem_cons] at hc
      rcases hc with h | h
      · exact Or.inr (by rw [h]; exact List.mem_cons_self c0 cs)
      · rcases ih h with h2 | h2
        · exact Or.inl h2
        · exact Or.inr (List.mem_cons_of_mem c0 h2)

theorem aligned_setCol {df : DF} (ha : df.Aligned) {n : String} {vs : List Val}
    (hl : vs.length = df.index.length) : (df.setCol n vs).Aligned := by
  intro c hc
  simp only [DF.setCol] at hc
  rcases mem_setColAux hc with rfl | hc
  · exact hl
  · exact ha c hc

theorem aligned_set_index {df : DF} (ha : df.Aligned) {k : String}
    (h : df.hasCol k = true) : (df.set_index k).Aligned := by
  intro c hc
  simp only [DF.set_index] at hc
  rw [set_index_index, getColD_length ha h]
  exact ha c (List.mem_of_mem_filter hc)

/-! ### Aggregation lemmas (sums and maxima over groups) -/

theorem foldl_add_valInt (l : List (Val × Val)) :
    ∀ c : Int, l.foldl (fun a p => a + valInt p.2) c
      = c + (l.map (fun p => valInt p.2)).sum := by
  induction l with
  | nil => intro c; simp
  | cons p ps ih =>
    intro c
    simp only [List.foldl_cons, List.map_cons, List.sum_cons, ih (c + valInt p.2)]
    ring

theorem foldl_max_ge_init (a : Int) (l : List Int) : a ≤ l.foldl max a := by
  induction l generalizing a with
  | nil => simp
  | cons x xs ih => exact le_trans (le_max_left a x) (ih (max a x))

theorem foldl_max_ge_mem {x : Int} {l : List Int} (h : x ∈ l) (a : Int) :
    x ≤ l.foldl max a := by
  induction l generalizing a with
  | nil => simp at h
  | cons y ys ih =>
    rcases List.mem_cons.mp h with rfl | h
    · exact le_trans (le_max_right a x) (foldl_max_ge_init (max a x) ys)
    · exact ih h (max a y)

theorem foldl_max_mem_or_init (l : List Int) :
    ∀ a : Int, l.foldl max a = a ∨ l.foldl max a ∈ l := by
  induction l with
  | nil => intro a; simp
  | cons x xs ih =>
    intro a
    rcases ih (max a x) with h | h
    · rcases max_cases a x with ⟨he, _⟩ | ⟨he, _⟩
      · exact Or.inl (by rw [List.foldl_cons, h, he])
      · refine Or.inr ?_
        rw [List.foldl_cons, h, he]
        exact List.mem_cons_self x xs
    · exact Or.inr (List.mem_cons_of_mem x h)

theorem groupMax_ge {keys vals : List Val} {k : Val} {p : Val × Val}
    (hp : p ∈ keys.zip vals) (hk : p.1 = k) :
    valInt p.2 ≤ groupMax keys vals k := by
  have hmem : p ∈ (keys.zip vals).filter (fun q => q.1 == k) := by
    rw [List.mem_filter]
    exact ⟨hp, by simpa using hk⟩
  have hmem2 : valInt p.2 ∈
      ((keys.zip vals).filter (fun q => q.1 == k)).map (fun q => valInt q.2) :=
    List.mem_map_of_mem (fun q => valInt q.2) hmem
  unfold groupMax
  cases hl : ((keys.zip vals).filter (fun q => q.1 == k)).map (fun q => valInt q.2) with
  | nil => rw [hl] at hmem2; simp at hmem2
  | cons x xs =>
    rw [hl] at hmem2
    rcases List.mem_cons.mp hmem2 with rfl | h
    · exact foldl_max_ge_init (valInt p.2) xs
    · exact foldl_max_ge_mem h x

theorem groupMax_attained {keys vals : List Val} {k : Val} {p : Val × Val}
    (hp : p ∈ keys.zip vals) (hk : p.1 = k) :
    ∃ q ∈ keys.zip vals, q.1 = k ∧ valInt q.2 = groupMax keys vals k := by
  have hmem : p ∈ (keys.zip vals).filter (fun q => q.1 == k) := by
    rw [List.mem_filter]
    exact ⟨hp, by simpa using hk⟩
  unfold groupMax
  cases hl : ((keys.zip vals).filter (fun q => q.1 == k)).map (fun q => valInt q.2) with
  | nil =>
    have : valInt p.2 ∈
        ((keys.zip vals).filter (fun q => q.1 == k)).map (fun q => valInt q.2) :=
      List.mem_map_of_mem (fun q => valInt q.2) hmem
    rw [hl] at this; simp at this
  | cons x xs =>
    rcases foldl_max_mem_or_init xs x with h | h
    · have hx : x ∈ ((keys.zip vals).filter (fun q => q.1 == k)).map
          (fun q => valInt q.2) := by
        rw [hl]; exact List.mem_cons_self x xs
      obtain ⟨q, hq, hqx⟩ := List.mem_map.mp hx
      have hqf := List.mem_filter.mp hq
      exact ⟨q, hqf.1, by simpa using hqf.2, by rw [hqx]; exact h.symm⟩
    · have hx : xs.foldl max x ∈
          ((keys.zip vals).filter (fun q => q.1 == k)).map (fun q => valInt q.2) := by
        rw [hl]; exact List.mem_cons_of_mem x h
      obtain ⟨q, hq, hqx⟩ := List.mem_map.mp hx
      have hqf := List.mem_filter.mp hq
      exact ⟨q, hqf.1, by simpa using hqf.2, hqx⟩

theorem groupMax_eq_iff {keys vals : List Val} {k : Val} {p : Val × Val}
    (hp : p ∈ keys.zip vals) (hk : p.1 = k) :
    valInt p.2 = groupMax keys vals k ↔
      ∀ q ∈ keys.zip vals, q.1 = k → valInt q.2 ≤ valInt p.2 := by
  constructor
  · intro hmax q hq hqk
    rw [hmax]
    exact groupMax_ge hq hqk
  · intro hub
    obtain ⟨q, hq, hqk, hqmax⟩ := groupMax_attained hp hk
    have h1 : valInt p.2 ≤ groupMax keys vals k := groupMax_ge hp hk
    have h2 : groupMax keys vals k ≤ valInt p.2 := by
      rw [← hqmax]
      exact hub q hq hqk
    exact le_antisymm h1 h2

/-! ### Characterizing one full run of each stage -/

theorem get_cleaned_dataset_run (df : DF) (h1 : df.empty = false)
    (h2 : required_columns.all (fun c => df.hasCol c) = true) :
    get_cleaned_dataset df =
      addFlag (refillGrid (dedupIndex (setTimestampIndex (parseTimestamps
        (dropDateCol (coerceCol "direct_consumption" (coerceCol "grid_feedin"
          (coerceCol "grid_purchase" (dropDevTest df))))))))) := by
  simp only [get_cleaned_dataset, h1, h2, Bool.false_eq_true, if_false, if_true,
    cleanSteps, List.foldl_cons, List.foldl_nil]

theorem add_hour_metrics_run (df : DF) (h1 : df.empty = false) :
    add_hour_metrics df =
      maxFeedinFlags (maxPurchaseFlags (dropHourColumn
        (joinHourTotals (addHourColumn df)))) := by
  simp only [add_hour_metrics, h1, Bool.false_eq_true, if_false,
    ahmSteps, List.foldl_cons, List.foldl_nil]

theorem foldl_take_succ {α : Type} :
    ∀ (l : List (α → α)) (k : Nat), k < l.length → ∀ x : α,
      (l.take (k + 1)).foldl (fun d f => f d) x =
        (l.getD k id) ((l.take k).foldl (fun d f => f d) x)
  | [], k, h => by simp at h
  | f :: fs, 0, h => by intro x; simp
  | f :: fs, k + 1, h => by
    intro x
    have h' : k < fs.length := by simpa using h
    rw [List.take_succ_cons, List.take_succ_cons, List.foldl_cons, List.foldl_cons,
      List.getD_cons_succ, foldl_take_succ fs k h' (f x)]

/-! ### The cleaned numeric columns hold integers -/

theorem coerceNum_int (v : Val) : ∃ n : Int, coerceNum v = Val.int n := by
  cases v with
  | str s =>
    cases h : parseIntStr s with
    | none => exact ⟨0, by simp [coerceNum, to_numeric_coerce, h]⟩
    | some n => exact ⟨n, by simp [coerceNum, to_numeric_coerce, h]⟩
  | int n => exact ⟨n, rfl⟩
  | dt t => exact ⟨0, rfl⟩
  | bool b => exact ⟨if b then 1 else 0, rfl⟩
  | null => exact ⟨0, rfl⟩

theorem fillna0_of_int (n : Int) : fillna0 (Val.int n) = Val.int n := by
  simp [fillna0]

theorem mem_numericColumns {name : String} (h : name ∈ numericColumns) :
    name = "grid_purchase" ∨ name = "grid_feedin" ∨ name = "direct_consumption" := by
  simpa [numericColumns] using h

theorem numeric_ne_date {name : String} (h : name ∈ numericColumns) :
    name ≠ "date" := by
  rcases mem_numericColumns h with rfl | rfl | rfl <;> decide

theorem numeric_ne_timestamp {name : String} (h : name ∈ numericColumns) :
    name ≠ "timestamp" := by
  rcases mem_numericColumns h with rfl | rfl | rfl <;> decide

theorem numeric_ne_flag {name : String} (h : name ∈ numericColumns) :
    name ≠ "direct_consumption_flag" := by
  rcases mem_numericColumns h with rfl | rfl | rfl <;> decide

theorem coerce3_colInt (d : DF) (name : String) (hname : name ∈ numericColumns)
    (hgp : d.hasCol "grid_purchase" = true)
    (hgf : d.hasCol "grid_feedin" = true)
    (hdc : d.hasCol "direct_consumption" = true) :
    ∀ v ∈ getColD name (coerceCol "direct_consumption" (coerceCol "grid_feedin"
      (coerceCol "grid_purchase" d))), ∃ n : Int, v = Val.int n := by
  intro v hv
  rcases mem_numericColumns hname with h | h | h
  · subst h
    rw [coerceCol, coerceCol, coerceCol,
      getColD_mapCol_other (by decide) _ coerceNum,
      getColD_mapCol_other (by decide) _ coerceNum,
      getColD_mapCol_self hgp coerceNum] at hv
    obtain ⟨u, _, hu⟩ := List.mem_map.mp hv
    rw [← hu]
    exact coerceNum_int u
  · subst h
    have hgf2 : (d.mapCol "grid_purchase" coerceNum).hasCol "grid_feedin" = true := by
      rw [hasCol_mapCol]; exact hgf
    rw [coerceCol, coerceCol, coerceCol,
      getColD_mapCol_other (by decide) _ coerceNum,
      getColD_mapCol_self hgf2 coerceNum] at hv
    obtain ⟨u, _, hu⟩ := List.mem_map.mp hv
    rw [← hu]
    exact coerceNum_int u
  · subst h
    have hdc2 : ((d.mapCol "grid_purchase" coerceNum).mapCol "grid_feedin"
        coerceNum).hasCol "direct_consumption" = true := by
      rw [hasCol_mapCol, hasCol_mapCol]; exact hdc
    rw [coerceCol, coerceCol, coerceCol, getColD_mapCol_self hdc2 coerceNum] at hv
    obtain ⟨u, _, hu⟩ := List.mem_map.mp hv
    rw [← hu]
    exact coerceNum_int u

theorem tail_steps_colInt (d : DF) (name : String) (hname : name ∈ numericColumns)
    (hc : d.hasCol name = true)
    (hint : ∀ v ∈ getColD name d, ∃ n : Int, v = Val.int n) :
    ∀ v ∈ getColD name (addFlag (refillGrid (dedupIndex (setTimestampIndex
      (parseTimestamps (dropDateCol d)))))), ∃ n : Int, v = Val.int n := by
  have hnd := numeric_ne_date hname
  have hnt := numeric_ne_timestamp hname
  have hnf := numeric_ne_flag hname
  -- column survives and evolves through the tail steps
  have e5 : getColD name (dropDateCol d) = getColD name d :=
    getColD_dropCol_other hnd d
  have hc5 : (dropDateCol d).hasCol name = true := by
    rw [dropDateCol, hasCol_dropCol hnd]; exact hc
  have e6 : getColD name (parseTimestamps (dropDateCol d)) =
      getColD name (dropDateCol d) :=
    getColD_mapCol_other hnt _ to_datetime_coerce
  have hc6 : (parseTimestamps (dropDateCol d)).hasCol name = true := by
    rw [parseTimestamps, hasCol_mapCol]; exact hc5
  set s6 := parseTimestamps (dropDateCol d) with hs6
  set mask1 := (getColD "timestamp" s6).map (fun v => v != Val.null) with hmask1
  have hc6m : (s6.maskRows mask1).hasCol name = true := by
    rw [hasCol_maskRows]; exact hc6
  have e7 : getColD name (setTimestampIndex s6) =
      applyMask mask1 (getColD name s6) := by
    rw [setTimestampIndex, DF.filterBy, getColD_set_index hnt hc6m,
      getColD_maskRows hc6]
  have hc7 : (setTimestampIndex s6).hasCol name = true := by
    rw [setTimestampIndex, DF.filterBy, hasCol_set_index hnt, hasCol_maskRows]
    exact hc6
  set s7 := setTimestampIndex s6 with hs7
  have e8 : getColD name (dedupIndex s7) =
      applyMask (firstOccMask s7.index) (getColD name s7) := by
    rw [dedupIndex, getColD_maskRows hc7]
  have hc8 : (dedupIndex s7).hasCol name = true := by
    rw [dedupIndex, hasCol_maskRows]; exact hc7
  set s8 := dedupIndex s7 with hs8
  -- every cell still present in the column at s8 is a cell of the column at d
  have hmem8 : ∀ v ∈ getColD name s8, v ∈ getColD name d := by
    intro v hv
    rw [e8] at hv
    have hv7 := mem_of_mem_applyMask hv
    rw [hs7, e7] at hv7
    have hv6 := mem_of_mem_applyMask hv7
    rw [hs6, e6, e5] at hv6
    exact hv6
  have hint8 : ∀ v ∈ getColD name s8, ∃ n : Int, v = Val.int n := by
    intro v hv
    exact hint v (hmem8 v hv)
  -- refillGrid maps the column by fillna0 (or leaves it unchanged)
  have hint9 : ∀ v ∈ getColD name (refillGrid s8), ∃ n : Int, v = Val.int n := by
    intro v hv
    rcases mem_numericColumns hname with h | h | h
    · subst h
      have hcInner : (s8.mapCol "grid_purchase" fillna0).hasCol
          "grid_purchase" = true := by
        rw [hasCol_mapCol]; exact hc8
      rw [refillGrid, getColD_mapCol_other (by decide) _ fillna0,
        getColD_mapCol_self hc8 fillna0] at hv
      obtain ⟨u, hu, huv⟩ := List.mem_map.mp hv
      obtain ⟨n, hn⟩ := hint8 u hu
      exact ⟨n, by rw [← huv, hn, fillna0_of_int]⟩
    · subst h
      have hcInner : (s8.mapCol "grid_purchase" fillna0).hasCol
          "grid_feedin" = true := by
        rw [hasCol_mapCol]; exact hc8
      have eInner : getColD "grid_feedin" (s8.mapCol "grid_purchase" fillna0) =
          getColD "grid_feedin" s8 :=
        getColD_mapCol_other (by decide) _ fillna0
      rw [refillGrid, getColD_mapCol_self hcInner fillna0, eInner] at hv
      obtain ⟨u, hu, huv⟩ := List.mem_map.mp hv
      obtain ⟨n, hn⟩ := hint8 u hu
      exact ⟨n, by rw [← huv, hn, fillna0_of_int]⟩
    · subst h
      rw [refillGrid, getColD_mapCol_other (by decide) _ fillna0,
        getColD_mapCol_other (by decide) _ fillna0] at hv
      exact hint8 v hv
  intro v hv
  rw [addFlag, getColD_setCol_other hnf] at hv
  exact hint9 v hv

theorem cleaned_numeric_int (df : DF) (h1 : df.empty = false)
    (h2 : required_columns.all (fun c => df.hasCol c) = true)
    (name : String) (hname : name ∈ numericColumns) :
    ∀ v ∈ getColD name (get_cleaned_dataset df), ∃ n : Int, v = Val.int n := by
  have h2' : df.hasCol "timestamp" = true ∧ df.hasCol "grid_purchase" = true ∧
      df.hasCol "grid_feedin" = true ∧ df.hasCol "direct_consumption" = true := by
    simpa [required_columns, List.all_cons] using h2
  obtain ⟨hts, hgp, hgf, hdc⟩ := h2'
  rw [get_cleaned_dataset_run df h1 h2]
  set d1 := dropDevTest df with hd1
  have hgp1 : d1.hasCol "grid_purchase" = true := by
    rw [hd1, dropDevTest, DF.filterBy, hasCol_maskRows]; exact hgp
  have hgf1 : d1.hasCol "grid_feedin" = true := by
    rw [hd1, dropDevTest, DF.filterBy, hasCol_maskRows]; exact hgf
  have hdc1 : d1.hasCol "direct_consumption" = true := by
    rw [hd1, dropDevTest, DF.filterBy, hasCol_maskRows]; exact hdc
  set d4 := coerceCol "direct_consumption" (coerceCol "grid_feedin"
    (coerceCol "grid_purchase" d1)) with hd4
  have hc4 : d4.hasCol name = true := by
    rw [hd4, coerceCol, coerceCol, coerceCol, hasCol_mapCol, hasCol_mapCol,
      hasCol_mapCol]
    rcases mem_numericColumns hname with h | h | h
    · rw [h]; exact hgp1
    · rw [h]; exact hgf1
    · rw [h]; exact hdc1
  exact tail_steps_colInt d4 name hname hc4
    (coerce3_colInt d1 name hname hgp1 hgf1 hdc1)

/-! ### Hour-of-day grouping lemmas -/

theorem isDt_dt {v : Val} (h : isDt v = true) : ∃ t : DateTime, v = Val.dt t := by
  cases v with
  | dt t => exact ⟨t, rfl⟩
  | str s => simp [isDt] at h
  | int n => simp [isDt] at h
  | bool b => simp [isDt] at h
  | null => simp [isDt] at h

theorem isInt_int {v : Val} (h : isInt v = true) : ∃ n : Int, v = Val.int n := by
  cases v with
  | int n => exact ⟨n, rfl⟩
  | str s => simp [isInt] at h
  | dt t => simp [isInt] at h
  | bool b => simp [isInt] at h
  | null => simp [isInt] at h

theorem val_int_beq (a b : Int) : (Val.int a == Val.int b) = (a == b) := by
  rw [Bool.eq_iff_iff]
  simp [beq_iff_eq]

theorem getColD_addDayMaxFlags_other {n dst : String} (hn : n ≠ dst)
    (d : DF) (src : String) :
    getColD n (addDayMaxFlags d src dst) = getColD n d :=
  getColD_setCol_other hn d _

theorem hasCol_addDayMaxFlags_other {n dst : String} (hn : n ≠ dst)
    (d : DF) (src : String) :
    (addDayMaxFlags d src dst).hasCol n = d.hasCol n :=
  hasCol_setCol_other hn d _

theorem hour_group_totals (idx vals : List Val)
    (hdt : ∀ v ∈ idx, ∃ t : DateTime, v = Val.dt t) :
    (idx.map hourVal).map (fun h => if h == Val.null then Val.null
        else Val.int (groupSum (idx.map hourVal) vals h)) =
    idx.map (fun v => Val.int (((idx.zip vals).filter
        (fun p => tsHour p.1 == tsHour v)).map (fun p => valInt p.2)).sum) := by
  rw [List.map_map]
  apply List.map_congr_left
  intro v hv
  obtain ⟨t, rfl⟩ := hdt v hv
  have hnn : (hourVal (Val.dt t) == Val.null) = false := by
    rw [Bool.eq_false_iff]
    simp [hourVal, beq_iff_eq]
  simp only [Function.comp_apply, hnn, Bool.false_eq_true, if_false]
  congr 1
  unfold groupSum
  rw [foldl_add_valInt, zero_add, List.zip_map_left, List.filter_map,
    List.map_map]
  have hsnd : ((fun p : Val × Val => valInt p.2) ∘ Prod.map hourVal id) =
      fun p : Val × Val => valInt p.2 := by
    funext p
    cases p
    rfl
  rw [hsnd]
  have hpred : ∀ p ∈ idx.zip vals,
      ((fun q : Val × Val => q.1 == hourVal (Val.dt t)) ∘ Prod.map hourVal id) p =
      (fun q : Val × Val => tsHour q.1 == tsHour (Val.dt t)) p := by
    intro p hp
    obtain ⟨u, hu⟩ := hdt p.1 (List.of_mem_zip hp).1
    simp only [Function.comp_apply, Prod.map_fst, hu, hourVal, tsHour]
    rw [val_int_beq]
    rw [Bool.eq_iff_iff]
    simp [beq_iff_eq]
  rw [List.filter_congr hpred]

/-- C6: on a non-empty cleaned (timestamp-indexed, integer-valued,
collision-free) table, `add_hour_metrics` appends `grid_purchase_total`
and `grid_feedin_total`, and sets them on every record to the sum of the
respective column over all records of the entire table whose timestamps
share that record's hour-of-day — a global hour-of-day bucket spanning all
calendar days, broadcast onto every record of the bucket. -/
theorem C6_hour_of_day_totals (df : DF)
    (h1 : df.empty = false) (hdt : dtIndexed df)
    (hgp : df.hasCol "grid_purchase" = true)
    (hgf : df.hasCol "grid_feedin" = true)
    (hgpInt : colAllInt "grid_purchase" df)
    (hgfInt : colAllInt "grid_feedin" df)
    (hgpt : df.hasCol "grid_purchase_total" = false)
    (hgft : df.hasCol "grid_feedin_total" = false)
    (hnd : (df.cols.map Prod.fst).Nodup) :
    (add_hour_metrics df).hasCol "grid_purchase_total" = true ∧
    (add_hour_metrics df).hasCol "grid_feedin_total" = true ∧
    getColD "grid_purchase_total" (add_hour_metrics df) =
      df.index.map (fun v => Val.int
        (((df.index.zip (getColD "grid_purchase" df)).filter
          (fun p => tsHour p.1 == tsHour v)).map (fun p => valInt p.2)).sum) ∧
    getColD "grid_feedin_total" (add_hour_metrics df) =
      df.index.map (fun v => Val.int
        (((df.index.zip (getColD "grid_feedin" df)).filter
          (fun p => tsHour p.1 == tsHour v)).map (fun p => valInt p.2)).sum) := by
  rw [add_hour_metrics_run df h1]
  set d1 := addHourColumn df with hd1
  have hHours : getColD "hour" d1 = df.index.map hourVal :=
    getColD_setCol_self df "hour" _
  have hgp1 : getColD "grid_purchase" d1 = getColD "grid_purchase" df :=
    getColD_setCol_other (by decide) df _
  have hgf1 : getColD "grid_feedin" d1 = getColD "grid_feedin" df :=
    getColD_setCol_other (by decide) df _
  set d2 := joinHourTotals d1 with hd2
  have hd2eq : d2 = (d1.setCol "grid_purchase_total"
      ((getColD "hour" d1).map (fun h => if h == Val.null then Val.null
        else Val.int (groupSum (getColD "hour" d1)
          (getColD "grid_purchase" d1) h)))).setCol "grid_feedin_total"
      ((getColD "hour" d1).map (fun h => if h == Val.null then Val.null
        else Val.int (groupSum (getColD "hour" d1)
          (getColD "grid_feedin" d1) h))) := rfl
  have egpt2 : getColD "grid_purchase_total" d2 =
      (getColD "hour" d1).map (fun h => if h == Val.null then Val.null
        else Val.int (groupSum (getColD "hour" d1)
          (getColD "grid_purchase" d1) h)) := by
    rw [hd2eq, getColD_setCol_other (by decide), getColD_setCol_self]
  have egft2 : getColD "grid_feedin_total" d2 =
      (getColD "hour" d1).map (fun h => if h == Val.null then Val.null
        else Val.int (groupSum (getColD "hour" d1)
          (getColD "grid_feedin" d1) h)) := by
    rw [hd2eq, getColD_setCol_self]
  have hcgpt2 : d2.hasCol "grid_purchase_total" = true := by
    rw [hd2eq, hasCol_setCol_other (by decide)]
    exact hasCol_setCol_self _ _ _
  have hcgft2 : d2.hasCol "grid_feedin_total" = true := by
    rw [hd2eq]
    exact hasCol_setCol_self _ _ _
  refine ⟨?_, ?_, ?_, ?_⟩
  · rw [maxFeedinFlags, hasCol_addDayMaxFlags_other (by decide),
      maxPurchaseFlags, hasCol_addDayMaxFlags_other (by decide),
      dropHourColumn, hasCol_dropCol (by decide)]
    exact hcgpt2
  · rw [maxFeedinFlags, hasCol_addDayMaxFlags_other (by decide),
      maxPurchaseFlags, hasCol_addDayMaxFlags_other (by decide),
      dropHourColumn, hasCol_dropCol (by decide)]
    exact hcgft2
  · rw [maxFeedinFlags, getColD_addDayMaxFlags_other (by decide),
      maxPurchaseFlags, getColD_addDayMaxFlags_other (by decide),
      dropHourColumn, getColD_dropCol_other (by decide),
      egpt2, hHours, hgp1]
    exact hour_group_totals df.index (getColD "grid_purchase" df)
      (fun v hv => isDt_dt (hdt v hv))
  · rw [maxFeedinFlags, getColD_addDayMaxFlags_other (by decide),
      maxPurchaseFlags, getColD_addDayMaxFlags_other (by decide),
      dropHourColumn, getColD_dropCol_other (by decide),
      egft2, hHours, hgf1]
    exact hour_group_totals df.index (getColD "grid_feedin" df)
      (fun v hv => isDt_dt (hdt v hv))

/-- C6 witness: the totals description applied to a concrete two-day table
whose 01:00 rows (on different days) share a bucket. -/
theorem C6_hour_of_day_totals_witness :
    getColD "grid_purchase_total" (add_hour_metrics twoDayCleaned) =
      twoDayCleaned.index.map (fun v => Val.int
        (((twoDayCleaned.index.zip
          (getColD "grid_purchase" twoDayCleaned)).filter
          (fun p => tsHour p.1 == tsHour v)).map (fun p => valInt p.2)).sum) :=
  (C6_hour_of_day_totals twoDayCleaned (by decide) (by unfold dtIndexed; decide)
    (by decide) (by decide) (by unfold colAllInt; decide)
    (by unfold colAllInt; decide) (by decide) (by decide)
    (by decide)).2.2.1

/-! ### Per-day maximum lemmas -/

theorem getElem?_zip_eq {α β : Type} {l1 : List α} {l2 : List β} {i : Nat}
    (h1 : i < l1.length) (h2 : i < l2.length) :
    (l1.zip l2)[i]? = some (l1[i], l2[i]) := by
  have hz : i < (l1.zip l2).length := by
    rw [List.length_zip]
    omega
  rw [List.getElem?_eq_getElem hz, List.getElem_zip]

theorem dayKey_eq_iff {u v : Val} (hu : ∃ t : DateTime, u = Val.dt t)
    (hv : ∃ t : DateTime, v = Val.dt t) :
    dayKey u = dayKey v ↔ calendarDay u = calendarDay v := by
  obtain ⟨a, rfl⟩ := hu
  obtain ⟨b, rfl⟩ := hv
  simp only [dayKey, calendarDay, Val.dt.injEq, DateTime.mk.injEq, Prod.mk.injEq]
  tauto

theorem dayMaxFlags_col (d : DF) (src dst : String)
    (hdt : ∀ v ∈ d.index, ∃ t : DateTime, v = Val.dt t)
    (hlen : (getColD src d).length = d.index.length) :
    ∀ i, i < d.index.length → ∃ b : Bool,
      (getColD dst (addDayMaxFlags d src dst))[i]? = some (Val.bool b) ∧
      (b = true ↔ ∀ j, j < d.index.length →
        calendarDay (d.index.getD j Val.null) =
          calendarDay (d.index.getD i Val.null) →
        valInt ((getColD src d).getD j (Val.int 0)) ≤
          valInt ((getColD src d).getD i (Val.int 0))) := by
  intro i hi
  have hkl : (d.index.map dayKey).length = d.index.length := List.length_map _ _
  have hki : i < (d.index.map dayKey).length := by omega
  have hvi : i < (getColD src d).length := by omega
  have hcol : getColD dst (addDayMaxFlags d src dst) =
      ((d.index.map dayKey).zip (getColD src d)).map
        (fun p => Val.bool (decide (valInt p.2 =
          groupMax (d.index.map dayKey) (getColD src d) p.1))) :=
    getColD_setCol_self d dst _
  rw [hcol, List.getElem?_map, getElem?_zip_eq hki hvi]
  refine ⟨decide (valInt (getColD src d)[i] =
    groupMax (d.index.map dayKey) (getColD src d) (d.index.map dayKey)[i]),
    rfl, ?_⟩
  rw [decide_eq_true_iff]
  have hpmem : ((d.index.map dayKey)[i], (getColD src d)[i]) ∈
      (d.index.map dayKey).zip (getColD src d) :=
    List.getElem?_mem (getElem?_zip_eq hki hvi)
  rw [groupMax_eq_iff hpmem rfl]
  have hii : i < d.index.length := hi
  constructor
  · intro hq j hj hday
    have hkj : j < (d.index.map dayKey).length := by omega
    have hvj : j < (getColD src d).length := by omega
    have hqmem : ((d.index.map dayKey)[j], (getColD src d)[j]) ∈
        (d.index.map dayKey).zip (getColD src d) :=
      List.getElem?_mem (getElem?_zip_eq hkj hvj)
    have hkeq : (d.index.map dayKey)[j] = (d.index.map dayKey)[i] := by
      rw [List.getElem_map, List.getElem_map]
      rw [List.getD_eq_getElem d.index Val.null hj,
        List.getD_eq_getElem d.index Val.null hii] at hday
      exact (dayKey_eq_iff (hdt _ (List.getElem_mem hj))
        (hdt _ (List.getElem_mem hii))).mpr hday
    have hle := hq ((d.index.map dayKey)[j], (getColD src d)[j]) hqmem hkeq
    rw [List.getD_eq_getElem (getColD src d) (Val.int 0) hvj,
      List.getD_eq_getElem (getColD src d) (Val.int 0) hvi]
    exact hle
  · intro hj q hqmem hqk
    obtain ⟨jz, hjz, hjeq⟩ := List.mem_iff_getElem.mp hqmem
    have hjz2 : jz < (d.index.map dayKey).length ∧
        jz < (getColD src d).length := by
      rw [List.length_zip] at hjz
      omega
    have hq1 : q = ((d.index.map dayKey)[jz], (getColD src d)[jz]) := by
      rw [← hjeq, List.getElem_zip]
    have hdayz : calendarDay (d.index.getD jz Val.null) =
        calendarDay (d.index.getD i Val.null) := by
      have hjzi : jz < d.index.length := by omega
      rw [List.getD_eq_getElem d.index Val.null hjzi,
        List.getD_eq_getElem d.index Val.null hii]
      apply (dayKey_eq_iff (hdt _ (List.getElem_mem hjzi))
        (hdt _ (List.getElem_mem hii))).mp
      have : q.1 = dayKey d.index[jz] := by
        rw [hq1, List.getElem_map]
      rw [← this, hqk, List.getElem_map]
    have hres := hj jz (by omega) hdayz
    rw [List.getD_eq_getElem (getColD src d) (Val.int 0) hjz2.2,
      List.getD_eq_getElem (getColD src d) (Val.int 0) hvi] at hres
    rw [hq1]
    exact hres

theorem getColD_joinHourTotals_other {n : String}
    (h1 : n ≠ "grid_purchase_total") (h2 : n ≠ "grid_feedin_total") (d : DF) :
    getColD n (joinHourTotals d) = getColD n d := by
  simp only [joinHourTotals]
  rw [getColD_setCol_other h2, getColD_setCol_other h1]

theorem hasCol_joinHourTotals_other {n : String}
    (h1 : n ≠ "grid_purchase_total") (h2 : n ≠ "grid_feedin_total") (d : DF) :
    (joinHourTotals d).hasCol n = d.hasCol n := by
  simp only [joinHourTotals]
  rw [hasCol_setCol_other h2, hasCol_setCol_other h1]

/-! ### Column append / filter structure lemmas -/

theorem setColAux_not_found {n : String} {vs : List Val} :
    ∀ {cols : List (String × List Val)},
      cols.any (fun c => c.1 == n) = false →
      setColAux n vs cols = cols ++ [(n, vs)]
  | [], _ => rfl
  | c0 :: cs, h => by
    rw [List.any_cons] at h
    have h1 : (c0.1 == n) = false := by
      cases hb : (c0.1 == n) with
      | true => rw [hb] at h; simp at h
      | false => rfl
    have h2 : cs.any (fun c => c.1 == n) = false := by
      cases hb : cs.any (fun c => c.1 == n) with
      | true => rw [hb] at h; simp at h
      | false => rfl
    rw [setColAux_cons_ne cs h1, setColAux_not_found h2, List.cons_append]

theorem filter_label_absent {n : String} :
    ∀ {cols : List (String × List Val)},
      cols.any (fun c => c.1 == n) = false →
      cols.filter (fun c => c.1 != n) = cols
  | [], _ => rfl
  | c0 :: cs, h => by
    rw [List.any_cons] at h
    have h1 : (c0.1 == n) = false := by
      cases hb : (c0.1 == n) with
      | true => rw [hb] at h; simp at h
      | false => rfl
    have h2 : cs.any (fun c => c.1 == n) = false := by
      cases hb : cs.any (fun c => c.1 == n) with
      | true => rw [hb] at h; simp at h
      | false => rfl
    have hbne : (c0.1 != n) = true := by
      rw [bne, h1]
      rfl
    rw [List.filter_cons, hbne, if_pos rfl, filter_label_absent h2]

/-! ### Lemmas about the pre-dedup intermediate table -/

theorem preDedup_hasCol (df : DF) {name : String} (hnts : name ≠ "timestamp")
    (hndate : name ≠ "date") :
    (preDedup df).hasCol name = df.hasCol name := by
  rw [preDedup, setTimestampIndex, hasCol_set_index hnts, DF.filterBy,
    hasCol_maskRows, parseTimestamps, hasCol_mapCol, dropDateCol,
    hasCol_dropCol hndate, coerceCol, hasCol_mapCol, coerceCol, hasCol_mapCol,
    coerceCol, hasCol_mapCol, dropDevTest, DF.filterBy, hasCol_maskRows]

theorem preDedup_aligned {df : DF} (ha : df.Aligned)
    (hts : df.hasCol "timestamp" = true) : (preDedup df).Aligned := by
  have a1 : (dropDevTest df).Aligned := aligned_maskRows ha _
  have a2 : (coerceCol "grid_purchase" (dropDevTest df)).Aligned :=
    aligned_mapCol a1 _ _
  have a3 : (coerceCol "grid_feedin" (coerceCol "grid_purchase"
      (dropDevTest df))).Aligned := aligned_mapCol a2 _ _
  have a4 : (coerceCol "direct_consumption" (coerceCol "grid_feedin"
      (coerceCol "grid_purchase" (dropDevTest df)))).Aligned :=
    aligned_mapCol a3 _ _
  have a5 : (dropDateCol (coerceCol "direct_consumption" (coerceCol
      "grid_feedin" (coerceCol "grid_purchase" (dropDevTest df))))).Aligned :=
    aligned_dropCol a4 _
  have a6 : (parseTimestamps (dropDateCol (coerceCol "direct_consumption"
      (coerceCol "grid_feedin" (coerceCol "grid_purchase"
        (dropDevTest df)))))).Aligned := aligned_mapCol a5 _ _
  have hts6 : (parseTimestamps (dropDateCol (coerceCol "direct_consumption"
      (coerceCol "grid_feedin" (coerceCol "grid_purchase"
        (dropDevTest df)))))).hasCol "timestamp" = true := by
    rw [parseTimestamps, hasCol_mapCol, dropDateCol,
      hasCol_dropCol (by decide : "timestamp" ≠ "date"), coerceCol,
      hasCol_mapCol, coerceCol, hasCol_mapCol, coerceCol, hasCol_mapCol,
      dropDevTest, DF.filterBy, hasCol_maskRows]
    exact hts
  have a6m : ((parseTimestamps (dropDateCol (coerceCol "direct_consumption"
      (coerceCol "grid_feedin" (coerceCol "grid_purchase"
        (dropDevTest df)))))).maskRows
      ((getColD "timestamp" (parseTimestamps (dropDateCol (coerceCol
        "direct_consumption" (coerceCol "grid_feedin" (coerceCol
          "grid_purchase" (dropDevTest df))))))).map
        (fun v => v != Val.null))).Aligned := aligned_maskRows a6 _
  have hts6m : ((parseTimestamps (dropDateCol (coerceCol "direct_consumption"
      (coerceCol "grid_feedin" (coerceCol "grid_purchase"
        (dropDevTest df)))))).maskRows
      ((getColD "timestamp" (parseTimestamps (dropDateCol (coerceCol
        "direct_consumption" (coerceCol "grid_feedin" (coerceCol
          "grid_purchase" (dropDevTest df))))))).map
        (fun v => v != Val.null))).hasCol "timestamp" = true := by
    rw [hasCol_maskRows]
    exact hts6
  exact aligned_set_index a6m hts6m

theorem map_fillna0_of_int :
    ∀ {l : List Val}, (∀ v ∈ l, ∃ n : Int, v = Val.int n) → l.map fillna0 = l
  | [], _ => rfl
  | v :: vs, h => by
    obtain ⟨n, hn⟩ := h v (List.mem_cons_self v vs)
    rw [List.map_cons, hn, fillna0_of_int,
      map_fillna0_of_int (fun u hu => h u (List.mem_cons_of_mem v hu))]

theorem preDedup_colInt (df : DF)
    (hgp : df.hasCol "grid_purchase" = true)
    (hgf : df.hasCol "grid_feedin" = true)
    (hdc : df.hasCol "direct_consumption" = true)
    (name : String) (hname : name ∈ numericColumns) :
    ∀ v ∈ getColD name (preDedup df), ∃ n : Int, v = Val.int n := by
  have hnt := numeric_ne_timestamp hname
  have hnd2 := numeric_ne_date hname
  have hgp1 : (dropDevTest df).hasCol "grid_purchase" = true := by
    rw [dropDevTest, DF.filterBy, hasCol_maskRows]; exact hgp
  have hgf1 : (dropDevTest df).hasCol "grid_feedin" = true := by
    rw [dropDevTest, DF.filterBy, hasCol_maskRows]; exact hgf
  have hdc1 : (dropDevTest df).hasCol "direct_consumption" = true := by
    rw [dropDevTest, DF.filterBy, hasCol_maskRows]; exact hdc
  have hint4 := coerce3_colInt (dropDevTest df) name hname hgp1 hgf1 hdc1
  have hc4 : (coerceCol "direct_consumption" (coerceCol "grid_feedin"
      (coerceCol "grid_purchase" (dropDevTest df)))).hasCol name = true := by
    rw [coerceCol, hasCol_mapCol, coerceCol, hasCol_mapCol, coerceCol,
      hasCol_mapCol]
    rcases mem_numericColumns hname with h | h | h
    · rw [h]; exact hgp1
    · rw [h]; exact hgf1
    · rw [h]; exact hdc1
  have hc6 : (parseTimestamps (dropDateCol (coerceCol "direct_consumption"
      (coerceCol "grid_feedin" (coerceCol "grid_purchase"
        (dropDevTest df)))))).hasCol name = true := by
    rw [parseTimestamps, hasCol_mapCol, dropDateCol, hasCol_dropCol hnd2]
    exact hc4
  have hc6m : ((parseTimestamps (dropDateCol (coerceCol "direct_consumption"
      (coerceCol "grid_feedin" (coerceCol "grid_purchase"
        (dropDevTest df)))))).maskRows
      ((getColD "timestamp" (parseTimestamps (dropDateCol (coerceCol
        "direct_consumption" (coerceCol "grid_feedin" (coerceCol
          "grid_purchase" (dropDevTest df))))))).map
        (fun v => v != Val.null))).hasCol name = true := by
    rw [hasCol_maskRows]
    exact hc6
  intro v hv
  rw [preDedup, setTimestampIndex, DF.filterBy, getColD_set_index hnt hc6m,
    getColD_maskRows hc6, parseTimestamps, getColD_mapCol_other hnt,
    dropDateCol, getColD_dropCol_other hnd2] at hv
  exact hint4 v (mem_of_mem_applyMask hv)

/-! ### Claim theorems -/

/-- C1 (counterexample): on the spec's end-to-end raw rows, `clean` does
return exactly one row at 2024-01-01T01:00:00, but its `grid_purchase`
value is 0 (the first surviving duplicate row's coerced value), not the 50
the claim states. -/
theorem C1_grid_purchase_is_zero_not_50 :
    (get_cleaned_dataset exampleRaw).index = [Val.dt exT1] ∧
    getColD "grid_purchase" (get_cleaned_dataset exampleRaw) = [Val.int 0] ∧
    ¬ getColD "grid_purchase" (get_cleaned_dataset exampleRaw) = [Val.int 50] := by
  decide

/-- C1 (amended): on the end-to-end raw rows, `clean` returns exactly one
row, at timestamp 2024-01-01T01:00:00, with grid_purchase = 0 (the
unparseable first occurrence wins and is zeroed), grid_feedin = 30,
direct_consumption = 10 and direct_consumption_flag = true. -/
theorem C1_end_to_end_example :
    get_cleaned_dataset exampleRaw = exampleCleaned := by
  decide

/-- C5 (counterexample): when the source file does not exist,
`load_dataset` returns an empty table but reports the condition at
error level (via `logger.error`), not at warning level as claimed. -/
theorem C5_file_not_found_logs_error :
    (load_dataset ReadResult.fileNotFound).df = emptyDF ∧
    (load_dataset ReadResult.fileNotFound).level = LogLevel.error ∧
    ¬ (load_dataset ReadResult.fileNotFound).level = LogLevel.warning := by
  decide

/-- C5 (amended): `load_dataset` is total (never propagates an exception);
a missing source file yields an empty table and an error-level event
without traceback, and any other parse failure yields an empty table and an
error-level event with full traceback. -/
theorem C5_load_error_contract (r : ReadResult) :
    (r = ReadResult.fileNotFound →
      load_dataset r = ⟨emptyDF, LogLevel.error, false⟩) ∧
    (r = ReadResult.parseFailure →
      load_dataset r = ⟨emptyDF, LogLevel.error, true⟩) := by
  constructor
  · intro h; rw [h]; rfl
  · intro h; rw [h]; rfl

/-- C5 witness: the amended contract applied to a concrete missing-file
read outcome. -/
theorem C5_load_error_contract_witness :
    load_dataset ReadResult.fileNotFound = ⟨emptyDF, LogLevel.error, false⟩ :=
  (C5_load_error_contract ReadResult.fileNotFound).1 rfl

/-- C2 (counterexample): the output of `clean` on the end-to-end example is
non-empty, contains no Dev-test rows and no duplicate timestamps, yet
running `clean` on it does not return it unchanged — it returns the empty
table, because the timestamp column was consumed as the index. -/
theorem C2_reclean_not_identity :
    (get_cleaned_dataset exampleRaw).empty = false ∧
    (∀ v ∈ getColD "direct_consumption" (get_cleaned_dataset exampleRaw),
      v ≠ Val.str "Dev test") ∧
    (get_cleaned_dataset exampleRaw).index.Nodup ∧
    get_cleaned_dataset (get_cleaned_dataset exampleRaw) ≠
      get_cleaned_dataset exampleRaw := by
  decide

/-- C2 (amended): `clean` is not idempotent on its own output: a non-empty
cleaned table no longer carries a `timestamp` column (it became the index),
so a second run fails the required-columns check and returns the empty
table rather than the same table. -/
theorem C2_reclean_returns_empty (df : DF) (h1 : df.empty = false)
    (h2 : df.hasCol "timestamp" = false) :
    get_cleaned_dataset df = emptyDF := by
  simp only [get_cleaned_dataset, h1, Bool.false_eq_true, if_false,
    required_columns, List.all_cons, h2, Bool.false_and, List.all_nil]

/-- C2 witness: re-cleaning the concrete cleaned example yields the empty
table. -/
theorem C2_reclean_returns_empty_witness :
    get_cleaned_dataset (get_cleaned_dataset exampleRaw) = emptyDF :=
  C2_reclean_returns_empty (get_cleaned_dataset exampleRaw) (by decide) (by decide)

/-- C3 (counterexample): an unexpected exception interrupting the
try block after one completed statement makes both stages return a
partially transformed table, not the input as it stood before the stage:
for the cleaner the Dev-test row is already gone, and for the aggregator
the `hour` helper column is already attached. -/
theorem C3_failure_not_noop :
    get_cleaned_dataset_failAt 1 exampleRaw ≠ exampleRaw ∧
    add_hour_metrics_failAt 1 twoDayCleaned ≠ twoDayCleaned := by
  decide

/-- C3 (amended): when an unexpected exception interrupts a stage after `k`
completed transformation statements, the `except` handler returns the
running intermediate table — the input transformed by exactly the first
`k` statements (so it equals the untouched input only when `k = 0`), and a
run that completes every statement is the normal full run. -/
theorem C3_failure_returns_partial_run :
    (∀ (df : DF) (k : Nat), df.empty = false →
      required_columns.all (fun c => df.hasCol c) = true → k < cleanSteps.length →
      get_cleaned_dataset_failAt (k + 1) df =
        (cleanSteps.getD k id) (get_cleaned_dataset_failAt k df)) ∧
    (∀ (df : DF) (k : Nat), df.empty = false → k < ahmSteps.length →
      add_hour_metrics_failAt (k + 1) df =
        (ahmSteps.getD k id) (add_hour_metrics_failAt k df)) ∧
    (∀ df : DF,
      get_cleaned_dataset_failAt cleanSteps.length df = get_cleaned_dataset df ∧
      add_hour_metrics_failAt ahmSteps.length df = add_hour_metrics df) := by
  refine ⟨?_, ?_, ?_⟩
  · intro df k h1 h2 hk
    simp only [get_cleaned_dataset_failAt, h1, h2, Bool.false_eq_true, if_false,
      if_true]
    exact foldl_take_succ cleanSteps k hk df
  · intro df k h1 hk
    simp only [add_hour_metrics_failAt, h1, Bool.false_eq_true, if_false]
    exact foldl_take_succ ahmSteps k hk df
  · intro df
    constructor
    · simp only [get_cleaned_dataset_failAt, get_cleaned_dataset, List.take_length]
    · simp only [add_hour_metrics_failAt, add_hour_metrics, List.take_length]

/-- C3 witness: the partial-run description applied to the concrete example
at failure point 1 (after the Dev-test filter completed). -/
theorem C3_failure_returns_partial_run_witness :
    get_cleaned_dataset_failAt 1 exampleRaw =
      (cleanSteps.getD 0 id) (get_cleaned_dataset_failAt 0 exampleRaw) :=
  C3_failure_returns_partial_run.1 exampleRaw 0 (by decide) (by decide) (by decide)

/-- C8: on a non-empty cleaned table, `add_hour_metrics` sets
`max_grid_purchase_hour` to true on a record exactly when its
`grid_purchase` is greater than or equal to the `grid_purchase` of every
record sharing its calendar day — i.e. exactly the records attaining the
day's maximum, all tied records included — and analogously
`max_grid_feedin_hour` for `grid_feedin`. -/
theorem C8_day_maximum_flags (df : DF)
    (h1 : df.empty = false) (hdt : dtIndexed df) (ha : df.Aligned)
    (hgp : df.hasCol "grid_purchase" = true)
    (hgf : df.hasCol "grid_feedin" = true)
    (hgpInt : colAllInt "grid_purchase" df)
    (hgfInt : colAllInt "grid_feedin" df)
    (hgpt : df.hasCol "grid_purchase_total" = false)
    (hgft : df.hasCol "grid_feedin_total" = false)
    (hnd : (df.cols.map Prod.fst).Nodup) :
    (∀ i, i < df.index.length → ∃ b : Bool,
      (getColD "max_grid_purchase_hour" (add_hour_metrics df))[i]? =
        some (Val.bool b) ∧
      (b = true ↔ ∀ j, j < df.index.length →
        calendarDay (df.index.getD j Val.null) =
          calendarDay (df.index.getD i Val.null) →
        valInt ((getColD "grid_purchase" df).getD j (Val.int 0)) ≤
          valInt ((getColD "grid_purchase" df).getD i (Val.int 0)))) ∧
    (∀ i, i < df.index.length → ∃ b : Bool,
      (getColD "max_grid_feedin_hour" (add_hour_metrics df))[i]? =
        some (Val.bool b) ∧
      (b = true ↔ ∀ j, j < df.index.length →
        calendarDay (df.index.getD j Val.null) =
          calendarDay (df.index.getD i Val.null) →
        valInt ((getColD "grid_feedin" df).getD j (Val.int 0)) ≤
          valInt ((getColD "grid_feedin" df).getD i (Val.int 0)))) := by
  rw [add_hour_metrics_run df h1]
  have hgpx : getColD "grid_purchase"
      (dropHourColumn (joinHourTotals (addHourColumn df))) =
      getColD "grid_purchase" df := by
    rw [dropHourColumn, getColD_dropCol_other (by decide),
      getColD_joinHourTotals_other (by decide) (by decide),
      addHourColumn, getColD_setCol_other (by decide)]
  have hgfx : getColD "grid_feedin"
      (dropHourColumn (joinHourTotals (addHourColumn df))) =
      getColD "grid_feedin" df := by
    rw [dropHourColumn, getColD_dropCol_other (by decide),
      getColD_joinHourTotals_other (by decide) (by decide),
      addHourColumn, getColD_setCol_other (by decide)]
  have hidx : (dropHourColumn (joinHourTotals (addHourColumn df))).index =
      df.index := rfl
  constructor
  · intro i hi
    have hdtx : ∀ v ∈ (dropHourColumn (joinHourTotals (addHourColumn df))).index,
        ∃ t : DateTime, v = Val.dt t := by
      rw [hidx]
      exact fun v hv => isDt_dt (hdt v hv)
    have hlenx : (getColD "grid_purchase"
        (dropHourColumn (joinHourTotals (addHourColumn df)))).length =
        (dropHourColumn (joinHourTotals (addHourColumn df))).index.length := by
      rw [hgpx, hidx]
      exact getColD_length ha hgp
    obtain ⟨b, hb1, hb2⟩ := dayMaxFlags_col
      (dropHourColumn (joinHourTotals (addHourColumn df)))
      "grid_purchase" "max_grid_purchase_hour" hdtx hlenx i (by rw [hidx]; exact hi)
    rw [hgpx, hidx] at hb2
    refine ⟨b, ?_, hb2⟩
    rw [maxFeedinFlags, getColD_addDayMaxFlags_other (by decide)]
    exact hb1
  · intro i hi
    have hgfy : getColD "grid_feedin"
        (maxPurchaseFlags (dropHourColumn (joinHourTotals (addHourColumn df)))) =
        getColD "grid_feedin" df := by
      rw [maxPurchaseFlags, getColD_addDayMaxFlags_other (by decide), hgfx]
    have hidy : (maxPurchaseFlags (dropHourColumn
        (joinHourTotals (addHourColumn df)))).index = df.index := rfl
    have hdty : ∀ v ∈ (maxPurchaseFlags (dropHourColumn
        (joinHourTotals (addHourColumn df)))).index,
        ∃ t : DateTime, v = Val.dt t := by
      rw [hidy]
      exact fun v hv => isDt_dt (hdt v hv)
    have hleny : (getColD "grid_feedin" (maxPurchaseFlags (dropHourColumn
        (joinHourTotals (addHourColumn df))))).length =
        (maxPurchaseFlags (dropHourColumn
          (joinHourTotals (addHourColumn df)))).index.length := by
      rw [hgfy, hidy]
      exact getColD_length ha hgf
    obtain ⟨b, hb1, hb2⟩ := dayMaxFlags_col
      (maxPurchaseFlags (dropHourColumn (joinHourTotals (addHourColumn df))))
      "grid_feedin" "max_grid_feedin_hour" hdty hleny i (by rw [hidy]; exact hi)
    rw [hgfy, hidy] at hb2
    exact ⟨b, hb1, hb2⟩

/-- C8 witness: the flag description applied at the first row of a concrete
table with two rows tied at the daily maximum. -/
theorem C8_day_maximum_flags_witness :
    ∃ b : Bool,
      (getColD "max_grid_purchase_hour" (add_hour_metrics tieCleaned))[0]? =
        some (Val.bool b) ∧
      (b = true ↔ ∀ j, j < tieCleaned.index.length →
        calendarDay (tieCleaned.index.getD j Val.null) =
          calendarDay (tieCleaned.index.getD 0 Val.null) →
        valInt ((getColD "grid_purchase" tieCleaned).getD j (Val.int 0)) ≤
          valInt ((getColD "grid_purchase" tieCleaned).getD 0 (Val.int 0))) :=
  (C8_day_maximum_flags tieCleaned (by decide) (by unfold dtIndexed; decide)
    (by unfold DF.Aligned; decide) (by decide) (by decide)
    (by unfold colAllInt; decide) (by unfold colAllInt; decide)
    (by decide) (by decide) (by decide)).1 0 (by decide)

/-- C9 (counterexample): a timestamp-indexed table that already carries a
column named `hour` loses that column — its values are overwritten by the
derived hour-of-day and the column is then dropped — so not every
pre-existing column survives `add_hour_metrics` unmodified. -/
theorem C9_hour_column_destroyed :
    hourColCleaned.hasCol "hour" = true ∧
    (add_hour_metrics hourColCleaned).hasCol "hour" = false := by
  decide

/-- C9 (amended): on a non-empty timestamp-indexed table whose columns do
not collide with the five reserved names (`hour` and the four appended
metric columns), `add_hour_metrics` returns the table with the same index
and the same data columns, in order and with unchanged values, followed by
exactly the four appended columns `grid_purchase_total`,
`grid_feedin_total`, `max_grid_purchase_hour`, `max_grid_feedin_hour`. -/
theorem C9_frame_effect (df : DF)
    (h1 : df.empty = false) (hdt : dtIndexed df)
    (hgp : df.hasCol "grid_purchase" = true)
    (hgf : df.hasCol "grid_feedin" = true)
    (hgpInt : colAllInt "grid_purchase" df)
    (hgfInt : colAllInt "grid_feedin" df)
    (hh : df.hasCol "hour" = false)
    (hgpt : df.hasCol "grid_purchase_total" = false)
    (hgft : df.hasCol "grid_feedin_total" = false)
    (hmgp : df.hasCol "max_grid_purchase_hour" = false)
    (hmgf : df.hasCol "max_grid_feedin_hour" = false)
    (hnd : (df.cols.map Prod.fst).Nodup) :
    (add_hour_metrics df).index = df.index ∧
    ∃ a b c d : List Val,
      (add_hour_metrics df).cols = df.cols ++
        [("grid_purchase_total", a), ("grid_feedin_total", b),
         ("max_grid_purchase_hour", c), ("max_grid_feedin_hour", d)] := by
  rw [add_hour_metrics_run df h1]
  refine ⟨rfl, ?_⟩
  have hanyh : df.cols.any (fun c => c.1 == "hour") = false := by
    simpa [DF.hasCol] using hh
  have hanygpt : df.cols.any (fun c => c.1 == "grid_purchase_total") = false := by
    simpa [DF.hasCol] using hgpt
  have hanygft : df.cols.any (fun c => c.1 == "grid_feedin_total") = false := by
    simpa [DF.hasCol] using hgft
  have hanymgp : df.cols.any
      (fun c => c.1 == "max_grid_purchase_hour") = false := by
    simpa [DF.hasCol] using hmgp
  have hanymgf : df.cols.any
      (fun c => c.1 == "max_grid_feedin_hour") = false := by
    simpa [DF.hasCol] using hmgf
  -- step 1: the hour column is appended
  have hcols1 : (addHourColumn df).cols =
      df.cols ++ [("hour", df.index.map hourVal)] := by
    simp only [addHourColumn, DF.setCol]
    exact setColAux_not_found hanyh
  have hany1 : (addHourColumn df).cols.any
      (fun c => c.1 == "grid_purchase_total") = false := by
    rw [hcols1, List.any_append, hanygpt, List.any_cons, List.any_nil]
    simp
  have hany2 : ∀ vs : List Val, ((addHourColumn df).cols ++
      [("grid_purchase_total", vs)]).any
      (fun c => c.1 == "grid_feedin_total") = false := by
    intro vs
    rw [List.any_append, hcols1, List.any_append, hanygft, List.any_cons,
      List.any_nil, List.any_cons, List.any_nil]
    simp
  -- step 2: the two total columns are appended after the hour column
  have hcols2 : (joinHourTotals (addHourColumn df)).cols =
      df.cols ++ [("hour", df.index.map hourVal),
        ("grid_purchase_total", gpTotalsCol (addHourColumn df)),
        ("grid_feedin_total", gfTotalsCol (addHourColumn df))] := by
    simp only [joinHourTotals, DF.setCol]
    rw [setColAux_not_found hany1, setColAux_not_found (hany2 _), hcols1]
    simp [List.append_assoc]
  -- step 3: the hour column is dropped again
  have hcols3 : (dropHourColumn (joinHourTotals (addHourColumn df))).cols =
      df.cols ++ [("grid_purchase_total", gpTotalsCol (addHourColumn df)),
        ("grid_feedin_total", gfTotalsCol (addHourColumn df))] := by
    simp only [dropHourColumn, DF.dropCol]
    rw [hcols2, List.filter_append, filter_label_absent hanyh,
      List.filter_cons, if_neg (by simp), List.filter_cons,
      if_pos (by simp), List.filter_cons, if_pos (by simp),
      List.filter_nil]
  -- step 4: the purchase flag column is appended
  have hany3 : (dropHourColumn (joinHourTotals (addHourColumn df))).cols.any
      (fun c => c.1 == "max_grid_purchase_hour") = false := by
    rw [hcols3, List.any_append, hanymgp, List.any_cons, List.any_cons,
      List.any_nil]
    simp
  have hcols4 : (maxPurchaseFlags (dropHourColumn
      (joinHourTotals (addHourColumn df)))).cols =
      df.cols ++ [("grid_purchase_total", gpTotalsCol (addHourColumn df)),
        ("grid_feedin_total", gfTotalsCol (addHourColumn df)),
        ("max_grid_purchase_hour", dayMaxFlagCol (dropHourColumn
          (joinHourTotals (addHourColumn df))) "grid_purchase")] := by
    simp only [maxPurchaseFlags, addDayMaxFlags, DF.setCol]
    rw [setColAux_not_found hany3, hcols3]
    simp [List.append_assoc]
  -- step 5: the feedin flag column is appended
  have hany4 : (maxPurchaseFlags (dropHourColumn
      (joinHourTotals (addHourColumn df)))).cols.any
      (fun c => c.1 == "max_grid_feedin_hour") = false := by
    rw [hcols4, List.any_append, hanymgf, List.any_cons, List.any_cons,
      List.any_cons, List.any_nil]
    simp
  refine ⟨gpTotalsCol (addHourColumn df), gfTotalsCol (addHourColumn df),
    dayMaxFlagCol (dropHourColumn (joinHourTotals (addHourColumn df)))
      "grid_purchase",
    dayMaxFlagCol (maxPurchaseFlags (dropHourColumn
      (joinHourTotals (addHourColumn df)))) "grid_feedin", ?_⟩
  simp only [maxFeedinFlags, addDayMaxFlags, DF.setCol]
  rw [setColAux_not_found hany4, hcols4]
  simp [List.append_assoc]

/-- C9 witness: the frame description applied to the concrete two-day
cleaned table. -/
theorem C9_frame_effect_witness :
    (add_hour_metrics twoDayCleaned).index = twoDayCleaned.index ∧
    ∃ a b c d : List Val,
      (add_hour_metrics twoDayCleaned).cols = twoDayCleaned.cols ++
        [("grid_purchase_total", a), ("grid_feedin_total", b),
         ("max_grid_purchase_hour", c), ("max_grid_feedin_hour", d)] :=
  C9_frame_effect twoDayCleaned (by decide) (by unfold dtIndexed; decide)
    (by decide) (by decide) (by unfold colAllInt; decide)
    (by unfold colAllInt; decide) (by decide) (by decide) (by decide)
    (by decide) (by decide) (by decide)

/-- C7 (counterexample): with two raw rows whose timestamps parse to the
same value, where the first is a Dev-test row, the single surviving output
row carries the second row's values (grid_purchase 7), not the first
row's (grid_purchase 100) as the claim demands. -/
theorem C7_first_duplicate_can_be_dropped :
    (getColD "timestamp" dupDevRaw).map to_datetime_coerce =
      [Val.dt ⟨2024, 3, 5, 7, 0, 0⟩, Val.dt ⟨2024, 3, 5, 7, 0, 0⟩] ∧
    (get_cleaned_dataset dupDevRaw).index = [Val.dt ⟨2024, 3, 5, 7, 0, 0⟩] ∧
    getColD "grid_purchase" (get_cleaned_dataset dupDevRaw) = [Val.int 7] ∧
    getColD "grid_purchase" (get_cleaned_dataset dupDevRaw) ≠
      [Val.int 100] := by
  decide

/-- C7 (amended): among the rows surviving Dev-test removal and timestamp
parsing — the pre-dedup table, with values already coerced — `clean` keeps
exactly one row per timestamp, namely the first surviving occurrence in
input order: the output index is duplicate-free, every pre-dedup timestamp
is still present, and looking any pre-dedup timestamp up in the output
yields, for each numeric column, the same value as a first-match lookup in
the pre-dedup table. -/
theorem C7_duplicate_collapse_keeps_first_surviving (df : DF)
    (h1 : df.empty = false)
    (h2 : required_columns.all (fun c => df.hasCol c) = true)
    (ha : df.Aligned) (hnd : (df.cols.map Prod.fst).Nodup) :
    (get_cleaned_dataset df).index.Nodup ∧
    ∀ t ∈ (preDedup df).index,
      t ∈ (get_cleaned_dataset df).index ∧
      ∀ name ∈ numericColumns,
        lookupFirst t ((get_cleaned_dataset df).index.zip
          (getColD name (get_cleaned_dataset df))) =
        lookupFirst t ((preDedup df).index.zip
          (getColD name (preDedup df))) := by
  have h2' : df.hasCol "timestamp" = true ∧ df.hasCol "grid_purchase" = true ∧
      df.hasCol "grid_feedin" = true ∧ df.hasCol "direct_consumption" = true := by
    simpa [required_columns, List.all_cons] using h2
  obtain ⟨hts, hgp, hgf, hdc⟩ := h2'
  have hrun : get_cleaned_dataset df =
      addFlag (refillGrid (dedupIndex (preDedup df))) :=
    get_cleaned_dataset_run df h1 h2
  have hidx : (get_cleaned_dataset df).index =
      applyMask (firstOccMaskAux [] (preDedup df).index) (preDedup df).index := by
    rw [hrun]
    rfl
  constructor
  · rw [hidx]
    exact firstOccAux_nodup [] _
  · intro t ht
    refine ⟨?_, ?_⟩
    · rw [hidx]
      exact firstOccAux_mem [] _ t ht (by simp)
    · intro name hname
      have hcdf : df.hasCol name = true := by
        rcases mem_numericColumns hname with h | h | h
        · rw [h]; exact hgp
        · rw [h]; exact hgf
        · rw [h]; exact hdc
      have hcPre : (preDedup df).hasCol name = true := by
        rw [preDedup_hasCol df (numeric_ne_timestamp hname)
          (numeric_ne_date hname)]
        exact hcdf
      have hintPre := preDedup_colInt df hgp hgf hdc name hname
      have e8 : getColD name (dedupIndex (preDedup df)) =
          applyMask (firstOccMaskAux [] (preDedup df).index)
            (getColD name (preDedup df)) := getColD_maskRows hcPre _
      have hint8 : ∀ v ∈ getColD name (dedupIndex (preDedup df)),
          ∃ n : Int, v = Val.int n := by
        intro v hv
        rw [e8] at hv
        exact hintPre v (mem_of_mem_applyMask hv)
      have hc8 : (dedupIndex (preDedup df)).hasCol name = true := by
        rw [dedupIndex, hasCol_maskRows]
        exact hcPre
      have hcolout : getColD name (get_cleaned_dataset df) =
          applyMask (firstOccMaskAux [] (preDedup df).index)
            (getColD name (preDedup df)) := by
        rw [hrun, addFlag, getColD_setCol_other (numeric_ne_flag hname)]
        rcases mem_numericColumns hname with h | h | h
        · subst h
          rw [refillGrid, getColD_mapCol_other (by decide),
            getColD_mapCol_self hc8 fillna0, map_fillna0_of_int hint8, e8]
        · subst h
          have hc8i : ((dedupIndex (preDedup df)).mapCol "grid_purchase"
              fillna0).hasCol "grid_feedin" = true := by
            rw [hasCol_mapCol]
            exact hc8
          have e8i : getColD "grid_feedin" ((dedupIndex (preDedup df)).mapCol
              "grid_purchase" fillna0) = getColD "grid_feedin"
              (dedupIndex (preDedup df)) := getColD_mapCol_other (by decide) _ _
          rw [refillGrid, getColD_mapCol_self hc8i fillna0, e8i,
            map_fillna0_of_int hint8, e8]
        · subst h
          rw [refillGrid, getColD_mapCol_other (by decide),
            getColD_mapCol_other (by decide), e8]
      have hlen : (preDedup df).index.length =
          (getColD name (preDedup df)).length :=
        (getColD_length (preDedup_aligned ha hts) hcPre).symm
      rw [hidx, hcolout]
      exact firstOccAux_lookup [] (preDedup df).index
        (getColD name (preDedup df)) t hlen (by simp)

/-- C7 witness: first-occurrence lookup preservation at the concrete
duplicate-timestamp table. -/
theorem C7_duplicate_collapse_witness :
    lookupFirst (Val.dt ⟨2024, 3, 5, 7, 0, 0⟩)
      ((get_cleaned_dataset dup2Raw).index.zip
        (getColD "grid_purchase" (get_cleaned_dataset dup2Raw))) =
    lookupFirst (Val.dt ⟨2024, 3, 5, 7, 0, 0⟩)
      ((preDedup dup2Raw).index.zip
        (getColD "grid_purchase" (preDedup dup2Raw))) :=
  ((C7_duplicate_collapse_keeps_first_surviving dup2Raw (by decide) (by decide)
    (by unfold DF.Aligned; decide) (by decide)).2
    (Val.dt ⟨2024, 3, 5, 7, 0, 0⟩) (by decide)).2 "grid_purchase" (by decide)

/-- C10 (counterexample): an extra input column named
`direct_consumption_flag` is not preserved by `clean` — Task #7 overwrites
its value with the computed flag. -/
theorem C10_flag_column_overwritten :
    flagColRaw.hasCol "direct_consumption_flag" = true ∧
    getColD "direct_consumption_flag" flagColRaw = [Val.str "keep me"] ∧
    getColD "direct_consumption_flag" (get_cleaned_dataset flagColRaw) ≠
      [Val.str "keep me"] := by
  decide

/-- C10 (amended): any input column other than the four required columns,
the optional `date` column, and the reserved `direct_consumption_flag` name
is carried through `clean`: it is present in the output, and the output's
(timestamp, value) pairs for it form an order-preserving selection
(sublist) of the input's (parsed-timestamp, value) pairs — surviving rows
keep their original values. -/
theorem C10_extra_columns_preserved (df : DF) (h1 : df.empty = false)
    (h2 : required_columns.all (fun c => df.hasCol c) = true)
    (ha : df.Aligned) (hnd : (df.cols.map Prod.fst).Nodup)
    (name : String) (hc : df.hasCol name = true)
    (hreq : ¬ name ∈ required_columns)
    (hdate : name ≠ "date") (hflag : name ≠ "direct_consumption_flag") :
    (get_cleaned_dataset df).hasCol name = true ∧
    List.Sublist
      ((get_cleaned_dataset df).index.zip
        (getColD name (get_cleaned_dataset df)))
      (((getColD "timestamp" df).map to_datetime_coerce).zip
        (getColD name df)) := by
  have h2' : df.hasCol "timestamp" = true ∧ df.hasCol "grid_purchase" = true ∧
      df.hasCol "grid_feedin" = true ∧ df.hasCol "direct_consumption" = true := by
    simpa [required_columns, List.all_cons] using h2
  obtain ⟨hts, hgp, hgf, hdc⟩ := h2'
  have hr : name ≠ "timestamp" ∧ name ≠ "grid_purchase" ∧
      name ≠ "grid_feedin" ∧ name ≠ "direct_consumption" := by
    simpa [required_columns] using hreq
  obtain ⟨hnts, hngp, hngf, hndc⟩ := hr
  have hrun : get_cleaned_dataset df =
      addFlag (refillGrid (dedupIndex (preDedup df))) :=
    get_cleaned_dataset_run df h1 h2
  have hcPre : (preDedup df).hasCol name = true := by
    rw [preDedup_hasCol df hnts hdate]
    exact hc
  have hcOut : (get_cleaned_dataset df).hasCol name = true := by
    rw [hrun, addFlag, hasCol_setCol_other hflag, refillGrid, hasCol_mapCol,
      hasCol_mapCol, dedupIndex, hasCol_maskRows]
    exact hcPre
  refine ⟨hcOut, ?_⟩
  -- hasCol facts along the pipeline
  have hcn1 : (dropDevTest df).hasCol name = true := by
    rw [dropDevTest, DF.filterBy, hasCol_maskRows]
    exact hc
  have hcn4 : (coerceCol "direct_consumption" (coerceCol "grid_feedin"
      (coerceCol "grid_purchase" (dropDevTest df)))).hasCol name = true := by
    rw [coerceCol, hasCol_mapCol, coerceCol, hasCol_mapCol, coerceCol,
      hasCol_mapCol]
    exact hcn1
  have hcn6 : (parseTimestamps (dropDateCol (coerceCol "direct_consumption"
      (coerceCol "grid_feedin" (coerceCol "grid_purchase"
        (dropDevTest df)))))).hasCol name = true := by
    rw [parseTimestamps, hasCol_mapCol, dropDateCol, hasCol_dropCol hdate]
    exact hcn4
  have hcn6m : ((parseTimestamps (dropDateCol (coerceCol "direct_consumption"
      (coerceCol "grid_feedin" (coerceCol "grid_purchase"
        (dropDevTest df)))))).maskRows
      ((getColD "timestamp" (parseTimestamps (dropDateCol (coerceCol
        "direct_consumption" (coerceCol "grid_feedin" (coerceCol
          "grid_purchase" (dropDevTest df))))))).map
        (fun v => v != Val.null))).hasCol name = true := by
    rw [hasCol_maskRows]
    exact hcn6
  have hcts1 : (dropDevTest df).hasCol "timestamp" = true := by
    rw [dropDevTest, DF.filterBy, hasCol_maskRows]
    exact hts
  have hcts5 : (dropDateCol (coerceCol "direct_consumption" (coerceCol
      "grid_feedin" (coerceCol "grid_purchase"
        (dropDevTest df))))).hasCol "timestamp" = true := by
    rw [dropDateCol, hasCol_dropCol (by decide : "timestamp" ≠ "date"),
      coerceCol, hasCol_mapCol, coerceCol, hasCol_mapCol, coerceCol,
      hasCol_mapCol]
    exact hcts1
  have hcts6 : (parseTimestamps (dropDateCol (coerceCol "direct_consumption"
      (coerceCol "grid_feedin" (coerceCol "grid_purchase"
        (dropDevTest df)))))).hasCol "timestamp" = true := by
    rw [parseTimestamps, hasCol_mapCol]
    exact hcts5
  -- the timestamp column of the parsed table
  have e_ts6 : getColD "timestamp" (parseTimestamps (dropDateCol (coerceCol
      "direct_consumption" (coerceCol "grid_feedin" (coerceCol
        "grid_purchase" (dropDevTest df)))))) =
      applyMask ((getColD "direct_consumption" df).map
          (fun v => v != Val.str "Dev test"))
        ((getColD "timestamp" df).map to_datetime_coerce) := by
    rw [parseTimestamps, getColD_mapCol_self hcts5 to_datetime_coerce,
      dropDateCol, getColD_dropCol_other (by decide : "timestamp" ≠ "date"),
      coerceCol, getColD_mapCol_other (by decide), coerceCol,
      getColD_mapCol_other (by decide), coerceCol,
      getColD_mapCol_other (by decide), dropDevTest, DF.filterBy,
      getColD_maskRows hts, ← applyMask_map]
  -- the pre-dedup index and extra column as double-masked raw lists
  have e_idx_pre : (preDedup df).index =
      applyMask ((getColD "timestamp" (parseTimestamps (dropDateCol (coerceCol
          "direct_consumption" (coerceCol "grid_feedin" (coerceCol
            "grid_purchase" (dropDevTest df))))))).map (fun v => v != Val.null))
        (applyMask ((getColD "direct_consumption" df).map
            (fun v => v != Val.str "Dev test"))
          ((getColD "timestamp" df).map to_datetime_coerce)) := by
    rw [preDedup, setTimestampIndex, DF.filterBy, set_index_index,
      getColD_maskRows hcts6]
    rw [e_ts6]
  have e_name_pre : getColD name (preDedup df) =
      applyMask ((getColD "timestamp" (parseTimestamps (dropDateCol (coerceCol
          "direct_consumption" (coerceCol "grid_feedin" (coerceCol
            "grid_purchase" (dropDevTest df))))))).map (fun v => v != Val.null))
        (applyMask ((getColD "direct_consumption" df).map
            (fun v => v != Val.str "Dev test"))
          (getColD name df)) := by
    rw [preDedup, setTimestampIndex, DF.filterBy, getColD_set_index hnts hcn6m,
      getColD_maskRows hcn6, parseTimestamps, getColD_mapCol_other hnts,
      dropDateCol, getColD_dropCol_other hdate, coerceCol,
      getColD_mapCol_other hndc, coerceCol, getColD_mapCol_other hngf,
      coerceCol, getColD_mapCol_other hngp, dropDevTest, DF.filterBy,
      getColD_maskRows hc]
  -- the output index and extra column add the first-occurrence mask on top
  have hidxOut : (get_cleaned_dataset df).index =
      applyMask (firstOccMaskAux [] (preDedup df).index)
        (preDedup df).index := by
    rw [hrun]
    rfl
  have hcolOut : getColD name (get_cleaned_dataset df) =
      applyMask (firstOccMaskAux [] (preDedup df).index)
        (getColD name (preDedup df)) := by
    rw [hrun, addFlag, getColD_setCol_other hflag, refillGrid,
      getColD_mapCol_other hngf, getColD_mapCol_other hngp, dedupIndex,
      getColD_maskRows hcPre]
    rfl
  -- lengths stay matched under each mask
  have hl0 : ((getColD "timestamp" df).map to_datetime_coerce).length =
      (getColD name df).length := by
    rw [List.length_map, getColD_length ha hts, getColD_length ha hc]
  have hl1 := applyMask_length_pair ((getColD "direct_consumption" df).map
      (fun v => v != Val.str "Dev test"))
    ((getColD "timestamp" df).map to_datetime_coerce) (getColD name df) hl0
  have hl2 := applyMask_length_pair ((getColD "timestamp" (parseTimestamps
      (dropDateCol (coerceCol "direct_consumption" (coerceCol "grid_feedin"
        (coerceCol "grid_purchase" (dropDevTest df))))))).map
      (fun v => v != Val.null)) _ _ hl1
  rw [hidxOut, hcolOut, e_idx_pre, e_name_pre, ← applyMask_zip _ _ _ hl2,
    ← applyMask_zip _ _ _ hl1, ← applyMask_zip _ _ _ hl0]
  exact ((applyMask_sublist _ _).trans (applyMask_sublist _ _)).trans
    (applyMask_sublist _ _)

/-- C10 witness: the extra `battery_id` column survives cleaning on a
concrete table with one Dev-test row. -/
theorem C10_extra_columns_preserved_witness :
    (get_cleaned_dataset extraColRaw).hasCol "battery_id" = true ∧
    List.Sublist
      ((get_cleaned_dataset extraColRaw).index.zip
        (getColD "battery_id" (get_cleaned_dataset extraColRaw)))
      (((getColD "timestamp" extraColRaw).map to_datetime_coerce).zip
        (getColD "battery_id" extraColRaw)) :=
  C10_extra_columns_preserved extraColRaw (by decide) (by decide)
    (by unfold DF.Aligned; decide) (by decide) "battery_id" (by decide)
    (by decide) (by decide) (by decide)

/-- C4 (counterexample): a raw `grid_purchase` reading of -5 survives
cleaning as the negative integer -5; the cleaned numeric columns are not
non-negative. -/
theorem C4_negative_value_survives :
    getColD "grid_purchase" (get_cleaned_dataset negRaw) = [Val.int (-5)] ∧
    ¬ (0 : Int) ≤ -5 := by
  decide

/-- C4 (amended): for every accepted raw table, every cell of the three
numeric columns in `clean`'s output is an integer, and any cell whose
numeric coercion fails (missing or unparseable) is mapped to exactly 0;
non-negativity, however, is not enforced — parseable negative readings
survive as negative integers.  (Column labels are assumed unique, as
`read_csv` guarantees by mangling duplicate headers.) -/
theorem C4_numeric_columns_integer (df : DF) (h1 : df.empty = false)
    (h2 : required_columns.all (fun c => df.hasCol c) = true)
    (h3 : (df.cols.map Prod.fst).Nodup) :
    (∀ name ∈ numericColumns,
      ∀ v ∈ getColD name (get_cleaned_dataset df), ∃ n : Int, v = Val.int n) ∧
    (∀ v : Val, to_numeric_coerce v = Val.null → coerceNum v = Val.int 0) := by
  constructor
  · intro name hname
    exact cleaned_numeric_int df h1 h2 name hname
  · intro v hv
    simp [coerceNum, hv]

/-- C4 witness: the integer invariant applied to the concrete negative-value
table, and the zero mapping applied to the unparseable literal. -/
theorem C4_numeric_columns_integer_witness :
    (∃ n : Int, Val.int (-5) = Val.int n) ∧
    coerceNum (Val.str "abc") = Val.int 0 :=
  ⟨(C4_numeric_columns_integer negRaw (by decide) (by decide) (by decide)).1
      "grid_purchase" (by decide) (Val.int (-5)) (by decide),
    (C4_numeric_columns_integer negRaw (by decide) (by decide) (by decide)).2
      (Val.str "abc") (by decide)⟩

end Pipeline
